import Mathlib

/-!
# BullPen — verification of the time-windowed fallback-cache core

Shallow embedding of the server-side fetch-transform-cache-respond handlers of
the BullPen dashboard.  Each per-endpoint module below translates one source
file (or one request handler) into a pure Lean function:

* in-memory `Map` caches become association lists `Cache α`;
* `Date.now()` timestamps become `Int` milliseconds, passed explicitly;
* the single upstream `await axios.get / fetchJson` call of a handler becomes
  an explicit `Fetch β` argument: the outcome the network WOULD produce if the
  handler performs the call (handlers report whether they consumed it via
  `calledUpstream`);
* JavaScript truthiness on strings/numbers and `||` defaulting are modelled by
  the `strTruthy` / `jsOr...` helpers;
* floating-point payload numbers are modelled as `Rat` (`parseFloat` that
  yields `NaN` becomes `none`); decimal string formatting (`toFixed`) and ISO
  date rendering are abstracted to the underlying numeric value, which the
  cache/fallback control flow never inspects.
-/

namespace BullPen

/-! ## Generic cache model (the `Map`-based caches of every endpoint) -/

/-- One cache entry: `{ timestamp: Date.now(), data: value }` as stored by
every endpoint via `cache.set(key, { timestamp, data })`. -/
structure CacheEntry (α : Type) : Type where
  timestamp : Int
  data : α
deriving DecidableEq, Repr

/-- A `new Map()` cache: association list from cache key to entry.  The
invariant that keys are unique is maintained by `cacheSet` overwriting. -/
abbrev Cache (α : Type) : Type := List (String × CacheEntry α)

/-- `cache.get(key)`: first binding for the key, if any. -/
def cacheGet {α : Type} (c : Cache α) (k : String) : Option (CacheEntry α) :=
  match c with
  | [] => none
  | (k', e) :: rest => if k' = k then some e else cacheGet rest k

/-- `cache.set(key, entry)`: overwrite any previous binding for the key. -/
def cacheSet {α : Type} (c : Cache α) (k : String) (e : CacheEntry α) : Cache α :=
  (k, e) :: c.filter (fun p => p.1 ≠ k)

/-- `cache.delete(key)`. -/
def cacheDelete {α : Type} (c : Cache α) (k : String) : Cache α :=
  c.filter (fun p => p.1 ≠ k)

/-- `cache.clear()`. -/
def cacheClear {α : Type} (_c : Cache α) : Cache α := []

/-- The freshness test every endpoint uses:
`Date.now() - cached.timestamp < CACHE_DURATION`. -/
def isFresh {α : Type} (e : CacheEntry α) (ttl now : Int) : Bool :=
  now - e.timestamp < ttl

@[simp]
theorem cacheGet_nil {α : Type} (k : String) : cacheGet ([] : Cache α) k = none := rfl

@[simp]
theorem cacheGet_cons {α : Type} (k' k : String) (e : CacheEntry α) (c : Cache α) :
    cacheGet ((k', e) :: c) k = if k' = k then some e else cacheGet c k := rfl

theorem cacheGet_filter_ne {α : Type} (c : Cache α) (k s : String) (h : s ≠ k) :
    cacheGet (c.filter (fun p => p.1 ≠ s)) k = cacheGet c k := by
  induction c with
  | nil => rfl
  | cons p rest ih =>
    obtain ⟨k', e⟩ := p
    simp only [ne_eq, decide_not] at ih ⊢
    by_cases hk : k' = s
    · simp [List.filter_cons, hk, h, ih]
    · by_cases hkk : k' = k
      · subst hkk
        simp [List.filter_cons, hk, ih]
      · simp [List.filter_cons, hk, hkk, ih]

@[simp]
theorem cacheGet_set_self {α : Type} (c : Cache α) (k : String) (e : CacheEntry α) :
    cacheGet (cacheSet c k e) k = some e := by
  simp [cacheSet]

theorem cacheGet_set_other {α : Type} (c : Cache α) (k k' : String) (e : CacheEntry α)
    (h : k' ≠ k) : cacheGet (cacheSet c k e) k' = cacheGet c k' := by
  rw [cacheSet, cacheGet_cons, if_neg (Ne.symm h), cacheGet_filter_ne c k' k (Ne.symm h)]

@[simp]
theorem cacheGet_delete_self {α : Type} (c : Cache α) (k : String) :
    cacheGet (cacheDelete c k) k = none := by
  induction c with
  | nil => rfl
  | cons p rest ih =>
    obtain ⟨k', e⟩ := p
    by_cases hk : k' = k <;> simpa [cacheDelete, List.filter_cons, hk] using ih

theorem cacheGet_delete_other {α : Type} (c : Cache α) (k k' : String) (h : k' ≠ k) :
    cacheGet (cacheDelete c k) k' = cacheGet c k' :=
  cacheGet_filter_ne c k' k (Ne.symm h)

@[simp]
theorem cacheGet_clear {α : Type} (c : Cache α) (k : String) :
    cacheGet (cacheClear c) k = none := rfl

/-! ## JavaScript value helpers -/

/-- Truthiness of an optional string: `undefined`, `null` and `""` are falsy. -/
def strTruthy (s : Option String) : Bool :=
  match s with
  | some v => v ≠ ""
  | none => false

/-- `a || b` on optional strings (string-falsy chain). -/
def jsOrStr (a b : Option String) : Option String :=
  if strTruthy a then a else b

/-- `a || d` where `a` is a parsed number (`none` = `NaN`) and both `NaN`
and `0` are falsy. -/
def jsOrNum (a : Option Rat) (d : Rat) : Rat :=
  match a with
  | some v => if v = 0 then d else v
  | none => d

/-- `a || b` on optional arrays: an absent field falls through, a present
array (even empty) is truthy. -/
def jsOrList {α : Type} (a b : Option (List α)) : List α :=
  match a with
  | some l => l
  | none =>
    match b with
    | some l => l
    | none => []

/-! ## Upstream fetch outcomes -/

/-- Outcome of the single upstream call a handler may perform.
`failure` covers everything that makes the JS `await` throw: network error,
timeout, unparseable body, non-2xx axios status. `success` is a
transport-level 200 whose parsed body is `β`. -/
inductive Fetch (β : Type) : Type where
  | failure (msg : String) : Fetch β
  | success (body : β) : Fetch β
deriving DecidableEq, Repr

/-- What a handler run produces: the JSON response sent, the cache state
afterwards, and whether the upstream provider was called. -/
structure HandlerOut (ρ γ : Type) : Type where
  resp : ρ
  cache : γ
  calledUpstream : Bool
deriving DecidableEq, Repr

/-- `s.trim()`, written over the character list so that it evaluates. -/
def jsTrim (s : String) : String :=
  String.mk ((s.data.dropWhile Char.isWhitespace).reverse.dropWhile
    Char.isWhitespace).reverse

/-- `s.toLowerCase()`, written over the character list so that it evaluates. -/
def jsToLower (s : String) : String := String.mk (s.data.map Char.toLower)

/-- `s.toUpperCase()`, written over the character list so that it evaluates. -/
def jsToUpper (s : String) : String := String.mk (s.data.map Char.toUpper)

/-- `a || d` yielding a plain string (string-falsy default). -/
def jsOrStrD (a : Option String) (d : String) : String :=
  if strTruthy a then a.getD d else d

/-- Insert into a descending-sorted list (stable): helper for the
`.sort((a, b) => keyOf b - keyOf a)` calls of the endpoints. -/
def insertDescBy {α β : Type} [LinearOrder β] (key : α → β) (x : α) :
    List α → List α
  | [] => [x]
  | y :: ys => if key y ≤ key x then x :: y :: ys else y :: insertDescBy key x ys

/-- `.sort(...)` descending by a key (stable insertion sort). -/
def sortDescBy {α β : Type} [LinearOrder β] (key : α → β) (l : List α) : List α :=
  l.foldr (insertDescBy key) []

/-- Insert into an ascending-sorted list (stable). -/
def insertAscBy {α β : Type} [LinearOrder β] (key : α → β) (x : α) :
    List α → List α
  | [] => [x]
  | y :: ys => if key x ≤ key y then x :: y :: ys else y :: insertAscBy key x ys

/-- `.sort((a, b) => keyOf a - keyOf b)` ascending by a key. -/
def sortAscBy {α β : Type} [LinearOrder β] (key : α → β) (l : List α) : List α :=
  l.foldr (insertAscBy key) []

/-- Truthiness of an optional natural number (`0`, `null`, `undefined` and
`NaN` are falsy). -/
def natTruthy (x : Option Nat) : Bool :=
  match x with
  | some n => n ≠ 0
  | none => false

/-- `x || null` on a parsed number (`0` and `NaN` collapse to `null`). -/
def jsNumOrNull (x : Option Rat) : Option Rat :=
  match x with
  | some v => if v = 0 then none else some v
  | none => none

/-- Alpha Vantage soft-error test: truthiness of a three-way `||` chain such
as `data.Note || data.Information || data['Error Message']` (the field order
varies between files but disjunction is symmetric). -/
def avSoftError (m1 m2 m3 : Option String) : Bool :=
  strTruthy m1 || strTruthy m2 || strTruthy m3

/-- `m1 || m2 || m3 || dflt` for the error-message selection. -/
def avErrorMsg (m1 m2 m3 : Option String) (dflt : String) : String :=
  (jsOrStr m1 (jsOrStr m2 (jsOrStr m3 (some dflt)))).getD dflt

/-! ## Earnings module (Alpha Vantage earnings + estimates, shared clearCache)

Embeds the earnings API file: `getEarningsSurprises`, `getEarningsEstimates`
and `clearCache` over the two module-level maps `earningsCache` and
`estimatesCache`, both with `CACHE_DURATION = 24h`. -/

namespace Earnings

/-- `const CACHE_DURATION = 24 * 60 * 60 * 1000; // 24 hours` -/
def CACHE_DURATION : Int := 24 * 60 * 60 * 1000

/-- A raw Alpha Vantage quarterly/annual earnings record; EPS fields are the
`parseFloat` views of the strings (`none` = non-numeric / `NaN`). -/
structure AVQuarter : Type where
  reportedEPS : Option Rat
  estimatedEPS : Option Rat
  fiscalDateEnding : String
  reportedDate : String
deriving DecidableEq, Repr

/-- Parsed body of the EARNINGS call. -/
structure EarningsBody : Type where
  note : Option String
  information : Option String
  errorMessage : Option String
  quarterlyEarnings : Option (List AVQuarter)
deriving DecidableEq, Repr

/-- One element of `formattedEarnings` (the constant-`null` fiscalQuarter and
fiscalYear fields are omitted; `surprisePercent.toFixed(2)` is abstracted to
the numeric value). -/
structure FormattedQuarter : Type where
  actual : Rat
  estimate : Rat
  period : String
  surprise : Rat
  surprisePercent : Rat
  symbol : String
  reportedDate : String
deriving DecidableEq, Repr

/-- The per-quarter mapping inside `quarterlyEarnings.slice(0, 4).map(q => ...)`. -/
def formatQuarter (symbol : String) (q : AVQuarter) : FormattedQuarter :=
  let actual := jsOrNum q.reportedEPS 0
  let estimate := jsOrNum q.estimatedEPS actual
  let surprise := actual - estimate
  let surprisePercent := if estimate ≠ 0 then surprise / |estimate| * 100 else 0
  { actual := actual, estimate := estimate, period := q.fiscalDateEnding,
    surprise := surprise, surprisePercent := surprisePercent,
    symbol := symbol, reportedDate := q.reportedDate }

/-- A response sent by the earnings-surprises endpoint (also the shape stored
in `earningsCache`, which holds the whole `responseData`). -/
inductive EarningsResp : Type where
  | ok (data : List FormattedQuarter) : EarningsResp
  | err (error : String) : EarningsResp
deriving DecidableEq, Repr

/-- The `try`/`catch` part of `getEarningsSurprises` (entered when the cache
had no fresh entry). `cached` is the `earningsCache.get(symbol)` result read
before the call. -/
def getEarningsSurprisesTry (s : String) (cached : Option (CacheEntry EarningsResp))
    (cache : Cache EarningsResp) (now : Int) (fetch : Fetch EarningsBody) :
    HandlerOut EarningsResp (Cache EarningsResp) :=
  match fetch with
  | .failure msg =>
    match cached with
    | some e => ⟨e.data, cache, true⟩
    | none => ⟨.err msg, cache, true⟩
  | .success data =>
    if avSoftError data.note data.information data.errorMessage then
      match cached with
      | some e => ⟨e.data, cache, true⟩
      | none =>
        ⟨.err (avErrorMsg data.note data.information data.errorMessage
            "No earnings data available"), cache, true⟩
    else
      let quarterlyEarnings := data.quarterlyEarnings.getD []
      if quarterlyEarnings.isEmpty then
        match cached with
        | some e => ⟨e.data, cache, true⟩
        | none => ⟨.err "No earnings data available", cache, true⟩
      else
        let responseData := EarningsResp.ok
          (((quarterlyEarnings.take 4).map (formatQuarter s)).reverse)
        ⟨responseData, cacheSet cache s ⟨now, responseData⟩, true⟩

/-- `getEarningsSurprises(req, res)`: validate `symbol` and the API key, serve
a fresh cache hit, otherwise fetch with stale fallback. -/
def getEarningsSurprises (symbol : Option String) (hasMassiveKey : Bool)
    (cache : Cache EarningsResp) (now : Int) (fetch : Fetch EarningsBody) :
    HandlerOut EarningsResp (Cache EarningsResp) :=
  if strTruthy symbol = false then
    ⟨.err "symbol parameter is required", cache, false⟩
  else if hasMassiveKey = false then
    ⟨.err "Massive API key not configured", cache, false⟩
  else
    let s := symbol.getD ""
    let cached := cacheGet cache s
    match cached with
    | some e =>
      if isFresh e CACHE_DURATION now then ⟨e.data, cache, false⟩
      else getEarningsSurprisesTry s cached cache now fetch
    | none => getEarningsSurprisesTry s cached cache now fetch

/-- Parsed body of the EARNINGS_ESTIMATES call. -/
structure EstimatesBody : Type where
  note : Option String
  information : Option String
  errorMessage : Option String
  quarterlyEarnings : Option (List AVQuarter)
  quarterlyEstimates : Option (List AVQuarter)
  annualEarnings : Option (List AVQuarter)
  annualEstimates : Option (List AVQuarter)
deriving DecidableEq, Repr

/-- A response sent by the earnings-estimates endpoint (also the shape stored
in `estimatesCache`). -/
inductive EstimatesResp : Type where
  | ok (quarterly annual : List AVQuarter) : EstimatesResp
  | err (error : String) : EstimatesResp
deriving DecidableEq, Repr

/-- The `try`/`catch` part of `getEarningsEstimates`.  Note: the `catch`
block returns a typed failure WITHOUT consulting the cache. -/
def getEarningsEstimatesTry (s : String) (cached : Option (CacheEntry EstimatesResp))
    (cache : Cache EstimatesResp) (now : Int) (fetch : Fetch EstimatesBody) :
    HandlerOut EstimatesResp (Cache EstimatesResp) :=
  match fetch with
  | .failure msg => ⟨.err msg, cache, true⟩
  | .success data =>
    if avSoftError data.note data.information data.errorMessage then
      match cached with
      | some e => ⟨e.data, cache, true⟩
      | none =>
        ⟨.err (avErrorMsg data.note data.information data.errorMessage "API error"),
          cache, true⟩
    else
      let quarterlyData := jsOrList data.quarterlyEarnings data.quarterlyEstimates
      let annualData := jsOrList data.annualEarnings data.annualEstimates
      if quarterlyData.isEmpty && annualData.isEmpty then
        ⟨.err "No estimates data available for this symbol", cache, true⟩
      else
        let responseData := EstimatesResp.ok (quarterlyData.take 4) (annualData.take 3)
        ⟨responseData, cacheSet cache s ⟨now, responseData⟩, true⟩

/-- `getEarningsEstimates(req, res)`. -/
def getEarningsEstimates (symbol : Option String) (hasAlphaVantageKey : Bool)
    (cache : Cache EstimatesResp) (now : Int) (fetch : Fetch EstimatesBody) :
    HandlerOut EstimatesResp (Cache EstimatesResp) :=
  if strTruthy symbol = false then
    ⟨.err "symbol parameter is required", cache, false⟩
  else if hasAlphaVantageKey = false then
    ⟨.err "Alpha Vantage API key not configured", cache, false⟩
  else
    let s := symbol.getD ""
    let cached := cacheGet cache s
    match cached with
    | some e =>
      if isFresh e CACHE_DURATION now then ⟨e.data, cache, false⟩
      else getEarningsEstimatesTry s cached cache now fetch
    | none => getEarningsEstimatesTry s cached cache now fetch

/-- Result of the earnings `clearCache` administrative endpoint: the two
updated stores and the acknowledgement body `{ success, message }`. -/
structure ClearOut : Type where
  earningsCache : Cache EarningsResp
  estimatesCache : Cache EstimatesResp
  success : Bool
  message : String
deriving DecidableEq, Repr

/-- `clearCache(req, res)`: with a (truthy) `symbol`, delete that key from
both maps; otherwise clear both maps entirely.  Always acknowledges. -/
def clearCache (symbol : Option String)
    (earningsCache : Cache EarningsResp) (estimatesCache : Cache EstimatesResp) :
    ClearOut :=
  if strTruthy symbol then
    let s := symbol.getD ""
    { earningsCache := cacheDelete earningsCache s,
      estimatesCache := cacheDelete estimatesCache s,
      success := true, message := "Cache cleared for " ++ s }
  else
    { earningsCache := cacheClear earningsCache,
      estimatesCache := cacheClear estimatesCache,
      success := true, message := "All earnings cache cleared" }

end Earnings

/-! ## Finnhub company-news module (`getNewsSentiment`, routed at `/api/news`) -/

namespace FinnhubNews

/-- `const CACHE_DURATION = 6 * 60 * 60 * 1000; // 6 hours` -/
def CACHE_DURATION : Int := 6 * 60 * 60 * 1000

/-- A raw Finnhub company-news item. -/
structure NewsItem : Type where
  headline : Option String
  url : Option String
  datetime : Int
  source : String
  summary : Option String
  image : Option String
  category : Option String
  related : Option String
  id : Int
deriving DecidableEq, Repr

/-- One formatted feed entry.  `timePublished` keeps the epoch value whose
`YYYYMMDDTHHMMSSZ` rendering the code sorts on (the rendering is monotone in
the epoch value). -/
structure FormattedNews : Type where
  title : String
  url : String
  timePublished : Int
  source : String
  summary : String
  bannerImage : Option String
  category : String
  related : String
  id : Int
deriving DecidableEq, Repr

/-- The per-item mapping inside `newsItems.filter(...).map(item => ...)`. -/
def formatNewsItem (ticker : String) (item : NewsItem) : FormattedNews :=
  { title := item.headline.getD "", url := item.url.getD "",
    timePublished := item.datetime * 1000,
    source := item.source, summary := jsOrStrD item.summary "",
    bannerImage := if strTruthy item.image then item.image else none,
    category := jsOrStrD item.category "company news",
    related := jsOrStrD item.related ticker, id := item.id }

/-- A response of the news endpoint (also the shape stored in `newsCache`). -/
inductive NewsResp : Type where
  | ok (feed : List FormattedNews) : NewsResp
  | err (error : String) : NewsResp
deriving DecidableEq, Repr

/-- The `try`/`catch` part of the Finnhub `getNewsSentiment`.  The fetch body
is `none` when `response.data` is not an array. -/
def getNewsSentimentTry (t limStr cacheKey : String)
    (cached : Option (CacheEntry NewsResp)) (cache : Cache NewsResp) (now : Int)
    (fetch : Fetch (Option (List NewsItem))) : HandlerOut NewsResp (Cache NewsResp) :=
  match fetch with
  | .failure msg =>
    match cached with
    | some e => ⟨e.data, cache, true⟩
    | none => ⟨.err msg, cache, true⟩
  | .success body =>
    let newsItems := body.getD []
    if body.isNone || newsItems.isEmpty then
      -- empty / non-array: stale fallback if any entry exists, else an
      -- empty-feed success that is NOT written to the cache
      match cached with
      | some e => ⟨e.data, cache, true⟩
      | none => ⟨.ok [], cache, true⟩
    else
      let formattedNews :=
        (sortDescBy (fun n => n.timePublished)
          ((newsItems.filter
              (fun item => strTruthy item.headline && strTruthy item.url)).map
            (formatNewsItem t))).take ((limStr.toNat?).getD 0)
      let responseData := NewsResp.ok formattedNews
      ⟨responseData, cacheSet cache cacheKey ⟨now, responseData⟩, true⟩

/-- `getNewsSentiment(req, res)` of the Finnhub news file:
cache key is `` ticker ++ "_" ++ limit ``; 6-hour TTL. -/
def getNewsSentiment (ticker limit : Option String) (hasFinnhubKey : Bool)
    (cache : Cache NewsResp) (now : Int) (fetch : Fetch (Option (List NewsItem))) :
    HandlerOut NewsResp (Cache NewsResp) :=
  if strTruthy ticker = false then
    ⟨.err "ticker parameter is required", cache, false⟩
  else if hasFinnhubKey = false then
    ⟨.err "Finnhub API key not configured", cache, false⟩
  else
    let t := ticker.getD ""
    let limStr := limit.getD "10"
    let cacheKey := t ++ "_" ++ limStr
    let cached := cacheGet cache cacheKey
    match cached with
    | some e =>
      if isFresh e CACHE_DURATION now then ⟨e.data, cache, false⟩
      else getNewsSentimentTry t limStr cacheKey cached cache now fetch
    | none => getNewsSentimentTry t limStr cacheKey cached cache now fetch

end FinnhubNews

/-! ## Stock-search module (`searchStocks`, Yahoo Finance search) -/

namespace Search

/-- `const CACHE_DURATION = 5 * 60 * 1000; // 5 minutes` -/
def CACHE_DURATION : Int := 5 * 60 * 1000

/-- A raw Yahoo search quote. -/
structure Quote : Type where
  symbol : Option String
  quoteType : String
  shortname : Option String
  longname : Option String
  exchange : Option String
  exchDisp : Option String
  score : Option Rat
deriving DecidableEq, Repr

/-- One formatted search result. -/
structure SearchResult : Type where
  symbol : String
  name : String
  type : String
  exchange : String
  score : Rat
deriving DecidableEq, Repr

/-- `const validTypes = ['EQUITY', 'ETF', 'INDEX', 'MUTUALFUND'];` -/
def validTypes : List String := ["EQUITY", "ETF", "INDEX", "MUTUALFUND"]

/-- The per-quote mapping inside `response.data.quotes.filter(...).map(...)`. -/
def formatQuote (q : Quote) : SearchResult :=
  { symbol := q.symbol.getD "",
    name := jsOrStrD q.shortname (jsOrStrD q.longname (q.symbol.getD "")),
    type := q.quoteType,
    exchange := jsOrStrD q.exchange (jsOrStrD q.exchDisp "N/A"),
    score := jsOrNum q.score 0 }

/-- A response of the search endpoint.  The cache stores only the results
list (`searchCache.set(cacheKey, { data: results, timestamp })`). -/
inductive SearchResp : Type where
  | ok (data : List SearchResult) (cached stale : Bool) : SearchResp
  | err (error message : String) : SearchResp
deriving DecidableEq, Repr

/-- The `try`/`catch` part of `searchStocks`.  The fetch body is `none` when
`response.data` or `response.data.quotes` is missing. -/
def searchStocksTry (cacheKey : String) (cached : Option (CacheEntry (List SearchResult)))
    (cache : Cache (List SearchResult)) (now : Int) (fetch : Fetch (Option (List Quote))) :
    HandlerOut SearchResp (Cache (List SearchResult)) :=
  match fetch with
  | .failure msg =>
    match cached with
    | some e => ⟨.ok e.data false true, cache, true⟩
    | none => ⟨.err "Failed to search stocks" msg, cache, true⟩
  | .success body =>
    match body with
    | none =>
      match cached with
      | some e => ⟨.ok e.data false true, cache, true⟩
      | none => ⟨.ok [] false false, cache, true⟩
    | some quotes =>
      let results :=
        (sortDescBy (fun r => r.score)
          ((quotes.filter
              (fun q => strTruthy q.symbol && validTypes.contains q.quoteType)).map
            formatQuote)).take 8
      ⟨.ok results false false, cacheSet cache cacheKey ⟨now, results⟩, true⟩

/-- `searchStocks(req, res)`: a missing/blank query returns `success: true`
with an empty list (no validation failure, no cache interaction). -/
def searchStocks (q : Option String) (cache : Cache (List SearchResult)) (now : Int)
    (fetch : Fetch (Option (List Quote))) :
    HandlerOut SearchResp (Cache (List SearchResult)) :=
  if strTruthy q = false || jsTrim (q.getD "") = "" then
    ⟨.ok [] false false, cache, false⟩
  else
    let cacheKey := jsTrim (jsToLower (q.getD ""))
    let cached := cacheGet cache cacheKey
    match cached with
    | some e =>
      if isFresh e CACHE_DURATION now then ⟨.ok e.data true false, cache, false⟩
      else searchStocksTry cacheKey cached cache now fetch
    | none => searchStocksTry cacheKey cached cache now fetch

end Search

/-! ## Yahoo Finance chart module (`getChartData`) -/

namespace YahooChart

/-- `const CACHE_DURATION = 5 * 60 * 1000; // 5 minutes` -/
def CACHE_DURATION : Int := 5 * 60 * 1000

/-- `result.meta` fields the handler copies out. -/
structure ChartMeta : Type where
  symbol : String
  currency : Option String
  exchangeName : Option String
  regularMarketPrice : Option Rat
  previousClose : Option Rat
  chartPreviousClose : Option Rat
deriving DecidableEq, Repr

/-- `result.indicators.quote[0]`: the parallel OHLCV arrays (null slots are
`none`). -/
structure QuoteArrays : Type where
  openPrices : List (Option Rat)
  highPrices : List (Option Rat)
  lowPrices : List (Option Rat)
  closePrices : List (Option Rat)
  volumes : List (Option Rat)
deriving DecidableEq, Repr

/-- `data.chart.result[0]`: `timestamp` is `none` when the field is missing,
`quote` is `none` when `indicators.quote[0]` is missing. -/
structure ChartResult : Type where
  timestamp : Option (List Int)
  quote : Option QuoteArrays
  meta : ChartMeta
deriving DecidableEq, Repr

/-- `data.chart`: `error` is `some desc?` when `data.chart.error` is present
(`desc?` its optional `description`); `result` is `none` when
`data.chart.result[0]` is missing. -/
structure ChartObj : Type where
  error : Option (Option String)
  result : Option ChartResult
deriving DecidableEq, Repr

/-- One formatted price point (the redundant ISO `date` string is derived
from `timestamp` and omitted). -/
structure PricePoint : Type where
  timestamp : Int
  openPrice : Option Rat
  high : Option Rat
  low : Option Rat
  close : Option Rat
  volume : Option Rat
deriving DecidableEq, Repr

/-- `timestamps.map((t, i) => ({...}))` followed by
`.filter(d => d.close !== null)`. -/
def formatPrices (ts : List Int) (q : QuoteArrays) : List PricePoint :=
  ((List.range ts.length).map (fun i =>
    ({ timestamp := (ts.getD i 0) * 1000,
       openPrice := q.openPrices.getD i none,
       high := q.highPrices.getD i none,
       low := q.lowPrices.getD i none,
       close := q.closePrices.getD i none,
       volume := q.volumes.getD i none } : PricePoint))).filter
    (fun d => d.close.isSome)

/-- The success payload the handler builds and caches. -/
structure ChartPayload : Type where
  symbol : String
  currency : Option String
  exchangeName : Option String
  regularMarketPrice : Option Rat
  previousClose : Option Rat
  chartPreviousClose : Option Rat
  range : String
  interval : String
  prices : List PricePoint
deriving DecidableEq, Repr

/-- A response of the chart endpoint (also what `chartCache` stores). -/
inductive ChartResp : Type where
  | ok (data : ChartPayload) : ChartResp
  | err (error : String) : ChartResp
deriving DecidableEq, Repr

/-- The repeated `if (cached) return res.json(cached.data); return
res.json({ success: false, ... })` fallback of the chart handler. -/
def staleOr (cached : Option (CacheEntry ChartResp)) (cache : Cache ChartResp)
    (fallback : ChartResp) : HandlerOut ChartResp (Cache ChartResp) :=
  match cached with
  | some e => ⟨e.data, cache, true⟩
  | none => ⟨fallback, cache, true⟩

/-- The `try`/`catch` part of `getChartData`.  The fetch body is `none` when
`!data || !data.chart`. -/
def getChartDataTry (cacheKey rangeV intervalV : String)
    (cached : Option (CacheEntry ChartResp)) (cache : Cache ChartResp) (now : Int)
    (fetch : Fetch (Option ChartObj)) : HandlerOut ChartResp (Cache ChartResp) :=
  match fetch with
  | .failure msg => staleOr cached cache (.err (jsOrStrD (some msg) "Failed to fetch chart data"))
  | .success body =>
    match body with
    | none => staleOr cached cache (.err "Invalid response from Yahoo Finance")
    | some chart =>
      match chart.error with
      | some descr => staleOr cached cache (.err (jsOrStrD descr "Failed to fetch chart data"))
      | none =>
        match chart.result with
        | none => staleOr cached cache (.err "Invalid chart data received")
        | some result =>
          match result.timestamp, result.quote with
          | some ts, some quoteArr =>
            let responseData := ChartResp.ok
              { symbol := result.meta.symbol, currency := result.meta.currency,
                exchangeName := result.meta.exchangeName,
                regularMarketPrice := result.meta.regularMarketPrice,
                previousClose := result.meta.previousClose,
                chartPreviousClose := result.meta.chartPreviousClose,
                range := rangeV, interval := intervalV,
                prices := formatPrices ts quoteArr }
            ⟨responseData, cacheSet cache cacheKey ⟨now, responseData⟩, true⟩
          | _, _ => staleOr cached cache (.err "Invalid chart data received")

/-- `getChartData(req, res)`: compound cache key
`` symbol ++ "_" ++ range ++ "_" ++ interval ``, 5-minute TTL. -/
def getChartData (symbol range interval : Option String) (cache : Cache ChartResp)
    (now : Int) (fetch : Fetch (Option ChartObj)) :
    HandlerOut ChartResp (Cache ChartResp) :=
  if strTruthy symbol = false then
    ⟨.err "symbol parameter is required", cache, false⟩
  else
    let s := symbol.getD ""
    let rangeV := range.getD "1d"
    let intervalV := interval.getD "5m"
    let cacheKey := s ++ "_" ++ rangeV ++ "_" ++ intervalV
    let cached := cacheGet cache cacheKey
    match cached with
    | some e =>
      if isFresh e CACHE_DURATION now then ⟨e.data, cache, false⟩
      else getChartDataTry cacheKey rangeV intervalV cached cache now fetch
    | none => getChartDataTry cacheKey rangeV intervalV cached cache now fetch

end YahooChart

/-! ## Firi module (balances, USDT/NOK rate, clear-cache) -/

namespace Firi

/-- `const BALANCES_CACHE_DURATION = 30000; // 30 seconds for balances` -/
def BALANCES_CACHE_DURATION : Int := 30000

/-- `const NOK_RATE_CACHE_DURATION = 60000; // 1 minute for NOK/USDT rate` -/
def NOK_RATE_CACHE_DURATION : Int := 60000

/-- A raw Firi balance line; `balance` is the `parseFloat` view of the string
(`none` = `NaN`). -/
structure RawBalance : Type where
  currency : String
  balance : Option Rat
deriving DecidableEq, Repr

/-- One formatted balance. -/
structure Balance : Type where
  currency : String
  balance : Rat
deriving DecidableEq, Repr

/-- A response of the balances endpoint (also the shape `balancesCache`
stores — the whole `responseData`).  `status` 200 for `res.json`, otherwise
the explicit `res.status(...)` value (`error.response?.status || 500`
simplified to 500). -/
inductive BalancesResp : Type where
  | ok (data : List Balance) : BalancesResp
  | err (status : Nat) (error : String) : BalancesResp
deriving DecidableEq, Repr

/-- `` `balances_${apiKey.substring(0, 8)}` `` -/
def balancesCacheKey (apiKey : String) : String :=
  "balances_" ++ apiKey.take 8

/-- The key recomputed inside the catch block:
`` `balances_${apiKey?.substring(0, 8) || 'default'}` ``. -/
def balancesCatchKey (apiKey : Option String) : String :=
  "balances_" ++ (match apiKey with
    | some k => if k.take 8 = "" then "default" else k.take 8
    | none => "default")

/-- The `try`/`catch` part of the balances handler. -/
def getBalancesTry (apiKey : Option String) (cacheKey : String)
    (cache : Cache BalancesResp) (now : Int) (fetch : Fetch (List RawBalance)) :
    HandlerOut BalancesResp (Cache BalancesResp) :=
  match fetch with
  | .success balances =>
    let formattedBalances :=
      (balances.filter (fun b =>
          match b.balance with
          | some v => decide (0 < v)
          | none => false)).map
        (fun b => ({ currency := b.currency, balance := b.balance.getD 0 } : Balance))
    let responseData := BalancesResp.ok formattedBalances
    ⟨responseData, cacheSet cache cacheKey ⟨now, responseData⟩, true⟩
  | .failure msg =>
    let catchKey := balancesCatchKey apiKey
    match cacheGet cache catchKey with
    | some e => ⟨e.data, cache, true⟩
    | none => ⟨.err 500 msg, cache, true⟩

/-- `app.get('/api/firi/balances')`: the cache key uses only the FIRST 8
characters of the API key (`x-firi-user-key` header, else the server key). -/
def getBalances (userKey serverKey : Option String)
    (cache : Cache BalancesResp) (now : Int) (fetch : Fetch (List RawBalance)) :
    HandlerOut BalancesResp (Cache BalancesResp) :=
  let apiKey := jsOrStr userKey serverKey
  if strTruthy apiKey = false then
    ⟨.err 200 "No API key configured. Please enter your Firi API key.", cache, false⟩
  else
    let cacheKey := balancesCacheKey (apiKey.getD "")
    let cached := cacheGet cache cacheKey
    match cached with
    | some e =>
      if isFresh e BALANCES_CACHE_DURATION now then ⟨e.data, cache, false⟩
      else getBalancesTry apiKey cacheKey cache now fetch
    | none => getBalancesTry apiKey cacheKey cache now fetch

/-- A Firi market record; `last` is the `parseFloat` view (`none` = `NaN`). -/
structure Market : Type where
  id : String
  last : Option Rat
deriving DecidableEq, Repr

/-- The rate endpoint only ever answers `{ success: true, rate }` (also the
shape `nokRateCache` stores); `rate = none` models the `NaN` of an
unparseable `last`. -/
structure RateResp : Type where
  rate : Option Rat
deriving DecidableEq, Repr

/-- The `try`/`catch` part of the USDT/NOK rate handler. -/
def getUsdtNokRateTry (cached : Option (CacheEntry RateResp)) (cache : Cache RateResp)
    (now : Int) (fetch : Fetch (List Market)) : HandlerOut RateResp (Cache RateResp) :=
  match fetch with
  | .success markets =>
    let usdtNokMarket := markets.find? (fun m => m.id = "usdtnok")
    let rate : Option Rat :=
      match usdtNokMarket with
      | some m => m.last
      | none => some (10.5 : Rat)
    let responseData : RateResp := ⟨rate⟩
    ⟨responseData, cacheSet cache "rate" ⟨now, responseData⟩, true⟩
  | .failure _ =>
    match cached with
    | some e => ⟨e.data, cache, true⟩
    | none => ⟨⟨some (10.5 : Rat)⟩, cache, true⟩

/-- `app.get('/api/firi/usdt-nok-rate')`: fixed cache key `"rate"`,
1-minute TTL, hardcoded `10.5` fallback rate. -/
def getUsdtNokRate (cache : Cache RateResp) (now : Int) (fetch : Fetch (List Market)) :
    HandlerOut RateResp (Cache RateResp) :=
  let cached := cacheGet cache "rate"
  match cached with
  | some e =>
    if isFresh e NOK_RATE_CACHE_DURATION now then ⟨e.data, cache, false⟩
    else getUsdtNokRateTry cached cache now fetch
  | none => getUsdtNokRateTry cached cache now fetch

/-- Result of `app.get('/api/firi/clear-cache')`. -/
structure FiriClearOut : Type where
  balancesCache : Cache BalancesResp
  nokRateCache : Cache RateResp
  success : Bool
  message : String
deriving DecidableEq, Repr

/-- The Firi clear-cache endpoint: clears both maps, no key parameter. -/
def clearFiriCache (balancesCache : Cache BalancesResp) (nokRateCache : Cache RateResp) :
    FiriClearOut :=
  { balancesCache := cacheClear balancesCache, nokRateCache := cacheClear nokRateCache,
    success := true, message := "Firi cache cleared" }

end Firi

/-! ## Exchange-rates module (Norges Bank USD/SEK→NOK) -/

namespace ExchangeRates

/-- `const CACHE_DURATION = 5 * 60 * 1000; // 5 minutes` -/
def CACHE_DURATION : Int := 5 * 60 * 1000

/-- The rates map built by the handler. -/
structure Rates : Type where
  USD : Rat
  SEK : Rat
  NOK : Rat
deriving DecidableEq, Repr

/-- Observations extracted from the Norges Bank SDMX body: the nested
`data.dataSets[0].series['0:i:0:0'].observations` probing collapsed to the
optional per-currency observation value (`none` when any link of the chain
is missing or unparseable). -/
structure NBBody : Type where
  usdObs : Option Rat
  sekObs : Option Rat
deriving DecidableEq, Repr

/-- `{ USD: 10.5, SEK: 1.0, NOK: 1.0 }` — the hardcoded approximate rates of
the catch block. -/
def fallbackRates : Rates := { USD := (10.5 : Rat), SEK := 1, NOK := 1 }

/-- The module-level cache: `let cachedRates = null; let cacheTime = 0;`
(a single slot, not a `Map`). -/
structure RatesState : Type where
  cachedRates : Option Rates
  cacheTime : Int
deriving DecidableEq, Repr

/-- Every response of the endpoint has `success: true`. -/
structure ExchangeResp : Type where
  data : Rates
  cached : Bool
  fallback : Bool
deriving DecidableEq, Repr

/-- The `try`/`catch` part of the exchange-rates handler.  NOTE: the catch
path ignores `cachedRates` entirely and answers with `fallbackRates`. -/
def exchangeRatesTry (st : RatesState) (now : Int) (fetch : Fetch NBBody) :
    HandlerOut ExchangeResp RatesState :=
  match fetch with
  | .success body =>
    let rates : Rates := { USD := body.usdObs.getD 1, SEK := body.sekObs.getD 1, NOK := 1 }
    ⟨{ data := rates, cached := false, fallback := false },
      { cachedRates := some rates, cacheTime := now }, true⟩
  | .failure _ =>
    ⟨{ data := fallbackRates, cached := false, fallback := true }, st, true⟩

/-- `router.get('/')` of the exchange-rates file. -/
def getExchangeRates (st : RatesState) (now : Int) (fetch : Fetch NBBody) :
    HandlerOut ExchangeResp RatesState :=
  match st.cachedRates with
  | some rates =>
    if now - st.cacheTime < CACHE_DURATION then
      ⟨{ data := rates, cached := true, fallback := false }, st, false⟩
    else exchangeRatesTry st now fetch
  | none => exchangeRatesTry st now fetch

end ExchangeRates

/-! ## Previous-closes module (Finnhub quotes, comma-separated symbol list) -/

namespace PreviousCloses

/-- `const CACHE_DURATION = 60 * 60 * 1000; // 1 hour` -/
def CACHE_DURATION : Int := 60 * 60 * 1000

/-- Character-level worker for `symbols.split(',')`. -/
def splitCommaAux (cs : List Char) : List (List Char) :=
  match cs with
  | [] => [[]]
  | c :: rest =>
    let r := splitCommaAux rest
    if c = ',' then [] :: r
    else
      match r with
      | [] => [[c]]
      | h :: t => (c :: h) :: t

/-- `symbols.split(',')` (JS `String.prototype.split` with a one-character
separator), written over the character list so that it evaluates. -/
def splitComma (s : String) : List String :=
  (splitCommaAux s.data).map (fun cs => String.mk cs)

/-- The quote body; `pc` is `none` when `response.data.pc` is `undefined`. -/
structure PCQuote : Type where
  pc : Option Rat
deriving DecidableEq, Repr

/-- The overall response: a symbol→previous-close map (as ordered pairs) or
a typed failure with HTTP status. -/
inductive PCResp : Type where
  | ok (data : List (String × Rat)) : PCResp
  | err (status : Nat) (error : String) : PCResp
deriving DecidableEq, Repr

/-- Result of the previous-closes handler. -/
structure PCOut : Type where
  resp : PCResp
  cache : Cache Rat
deriving DecidableEq, Repr

/-- The per-symbol conditions under which the loop contributes nothing: the
fetch throws, the body is falsy, or the quote lacks `pc`. -/
def symbolFetchOmitted (fetch : String → Fetch (Option PCQuote)) (s : String) : Bool :=
  match fetch s with
  | .failure _ => true
  | .success none => true
  | .success (some q) => q.pc.isNone

/-- The inner `try`/`catch` of one loop iteration: a failed fetch or a body
without `pc` adds nothing to the results and writes nothing to the cache
(`// Skip symbols that fail`). -/
def processSymbolFetch (fetch : String → Fetch (Option PCQuote)) (now : Int)
    (acc : List (String × Rat) × Cache Rat) (symbol : String) :
    List (String × Rat) × Cache Rat :=
  match fetch symbol with
  | .failure _ => acc
  | .success body =>
    match body with
    | some q =>
      match q.pc with
      | some previousClose =>
        (acc.1 ++ [(symbol, previousClose)], cacheSet acc.2 symbol ⟨now, previousClose⟩)
      | none => acc
    | none => acc

/-- One iteration of `for (const symbol of symbolList)`: fresh cache hit
(note the entry fields are `{ value, time }` in this file) or fetch. -/
def processSymbol (fetch : String → Fetch (Option PCQuote)) (now : Int)
    (acc : List (String × Rat) × Cache Rat) (symbol : String) :
    List (String × Rat) × Cache Rat :=
  match cacheGet acc.2 symbol with
  | some e =>
    if isFresh e CACHE_DURATION now then (acc.1 ++ [(symbol, e.data)], acc.2)
    else processSymbolFetch fetch now acc symbol
  | none => processSymbolFetch fetch now acc symbol

/-- `router.get('/')` of the previous-closes file: `now` is read once before
the loop; per-symbol failures are skipped silently and the response is
always `{ success: true, data: results }` on the loop path. -/
def previousCloses (symbols : Option String) (hasApiKey : Bool)
    (cache : Cache Rat) (now : Int) (fetch : String → Fetch (Option PCQuote)) :
    PCOut :=
  if strTruthy symbols = false then
    ⟨.err 400 "Missing symbols parameter", cache⟩
  else if hasApiKey = false then
    ⟨.err 500 "Finnhub API key not configured", cache⟩
  else
    let symbolList := splitComma (symbols.getD "")
    let out := symbolList.foldl (processSymbol fetch now) ([], cache)
    ⟨.ok out.1, out.2⟩

end PreviousCloses

/-! ## Yahoo-earnings module (Finnhub earnings + calendar, `getEarningsData`) -/

namespace YahooEarnings

/-- `const CACHE_DURATION = 24 * 60 * 60 * 1000; // 24 hours` -/
def CACHE_DURATION : Int := 24 * 60 * 60 * 1000

/-- A Finnhub earnings-surprise record. -/
structure Surprise : Type where
  actual : Option Rat
  estimate : Option Rat
  quarter : Option Nat
  year : Option Nat
  period : Option String
deriving DecidableEq, Repr

/-- A Finnhub earnings-calendar item.  `dateMs`, `monthIdx` and `year` are
the epoch value and parsed components of the `item.date` string
(`new Date(item.date)` abstracted to its components). -/
structure CalItem : Type where
  dateMs : Int
  monthIdx : Nat
  year : Nat
  epsEstimate : Option Rat
  revenueEstimate : Option Rat
deriving DecidableEq, Repr

/-- One entry of the formatted earnings history. -/
structure HistEntry : Type where
  quarter : String
  date : String
  epsActual : Rat
  epsEstimate : Rat
  epsSurprise : Rat
  surprisePercent : Rat
deriving DecidableEq, Repr

/-- `formatEarningsHistory(surprises)`. -/
def formatEarningsHistory (surprises : List Surprise) : List HistEntry :=
  (((surprises.filter (fun item =>
      item.actual.isSome && item.estimate.isSome &&
        natTruthy item.quarter && natTruthy item.year)).map (fun item =>
    let actual := item.actual.getD 0
    let estimate := item.estimate.getD 0
    let surprise := actual - estimate
    let surprisePercent := if estimate ≠ 0 then surprise / estimate * 100 else 0
    ({ quarter := "Q" ++ toString (item.quarter.getD 0) ++ " FY" ++
          toString (item.year.getD 0),
       date := item.period.getD "N/A",
       epsActual := actual, epsEstimate := estimate,
       epsSurprise := surprise, surprisePercent := surprisePercent } : HistEntry))).take
    12).reverse

/-- One formatted estimate entry (the constant-`null` low/high/analyst-count
subfields are omitted; `endDate` keeps the epoch value of `item.date`). -/
structure EstEntry : Type where
  period : String
  endDate : Int
  earningsEstimateAvg : Option Rat
  revenueEstimateAvg : Option Rat
deriving DecidableEq, Repr

/-- `formatEarningsEstimates(calendar)` (the `new Date()` it reads is the
request time `now`). -/
def formatEarningsEstimates (now : Int) (calendar : List CalItem) : List EstEntry :=
  let futureEarnings :=
    (sortAscBy (fun item => item.dateMs)
      (calendar.filter (fun item =>
        decide (now < item.dateMs) && item.epsEstimate.isSome))).take 4
  futureEarnings.map (fun item =>
    { period := "Q" ++ toString (item.monthIdx / 3 + 1) ++ " " ++ toString item.year,
      endDate := item.dateMs,
      earningsEstimateAvg := item.epsEstimate,
      revenueEstimateAvg := jsNumOrNull item.revenueEstimate })

/-- `findNextEarningsDate(calendar)`. -/
def findNextEarningsDate (now : Int) (calendar : List CalItem) : Option Int :=
  match sortAscBy (fun item => item.dateMs)
      (calendar.filter (fun item => decide (now < item.dateMs))) with
  | [] => none
  | item :: _ => some item.dateMs

/-- The formatted payload stored in `earningsCache` and returned as `data`. -/
structure EarningsData : Type where
  history : List HistEntry
  estimates : List EstEntry
  nextEarningsDate : Option Int
deriving DecidableEq, Repr

/-- A response of the yahoo-earnings endpoint. -/
inductive YEResp : Type where
  | ok (data : EarningsData) (cached stale : Bool) : YEResp
  | err (status : Nat) (error : String) : YEResp
deriving DecidableEq, Repr

/-- Combined body of the two parallel Finnhub calls (`Promise.all`: if either
rejects, the whole fetch fails). -/
structure SurBody : Type where
  surprises : List Surprise
  calendar : List CalItem
deriving DecidableEq, Repr

/-- The `try`/`catch` part of `getEarningsData`. -/
def getEarningsDataTry (cacheKey : String) (cached : Option (CacheEntry EarningsData))
    (cache : Cache EarningsData) (now : Int) (fetch : Fetch SurBody) :
    HandlerOut YEResp (Cache EarningsData) :=
  match fetch with
  | .failure _ =>
    match cached with
    | some e => ⟨.ok e.data false true, cache, true⟩
    | none => ⟨.err 500 "Failed to fetch earnings data", cache, true⟩
  | .success body =>
    if body.surprises.isEmpty && body.calendar.isEmpty then
      match cached with
      | some e => ⟨.ok e.data false true, cache, true⟩
      | none => ⟨.err 404 "No earnings data found", cache, true⟩
    else
      let earningsData : EarningsData :=
        { history := formatEarningsHistory body.surprises,
          estimates := formatEarningsEstimates now body.calendar,
          nextEarningsDate := findNextEarningsDate now body.calendar }
      ⟨.ok earningsData false false, cacheSet cache cacheKey ⟨now, earningsData⟩, true⟩

/-- `getEarningsData(req, res)`: cache key `symbol.toUpperCase()`, 24-hour
TTL, stale fallback on failure AND on an entirely empty result. -/
def getEarningsData (symbol : Option String) (cache : Cache EarningsData) (now : Int)
    (fetch : Fetch SurBody) : HandlerOut YEResp (Cache EarningsData) :=
  if strTruthy symbol = false then
    ⟨.err 400 "Symbol is required", cache, false⟩
  else
    let cacheKey := jsToUpper (symbol.getD "")
    let cached := cacheGet cache cacheKey
    match cached with
    | some e =>
      if isFresh e CACHE_DURATION now then ⟨.ok e.data true false, cache, false⟩
      else getEarningsDataTry cacheKey cached cache now fetch
    | none => getEarningsDataTry cacheKey cached cache now fetch

/-- Result of the yahoo-earnings `clearCache` endpoint (single store). -/
structure YEClearOut : Type where
  earningsCache : Cache EarningsData
  success : Bool
  message : String
deriving DecidableEq, Repr

/-- `clearCache(req, res)` of the yahoo-earnings file: deletes
`symbol.toUpperCase()` or clears the store. -/
def clearCache (symbol : Option String) (earningsCache : Cache EarningsData) :
    YEClearOut :=
  if strTruthy symbol then
    { earningsCache := cacheDelete earningsCache (jsToUpper (symbol.getD "")),
      success := true, message := "Cache cleared for " ++ symbol.getD "" }
  else
    { earningsCache := cacheClear earningsCache,
      success := true, message := "All earnings cache cleared" }

end YahooEarnings

/-! ## Company-profile module (Finnhub profile2 with Clearbit logo fallback) -/

namespace Profile

/-- `const CACHE_DURATION = 24 * 60 * 60 * 1000; // 24 hours` -/
def CACHE_DURATION : Int := 24 * 60 * 60 * 1000

/-- The provider profile payload; only the fields the handler inspects are
named, the remaining Finnhub fields ride along untouched and are omitted. -/
structure ProfileData : Type where
  name : Option String
  logo : Option String
  weburl : Option String
deriving DecidableEq, Repr

/-- A response of the profile endpoint as a record of the top-level JSON
fields it can emit.  NOTE: this endpoint never writes a `success`
discriminator — success responses are the raw profile object and failures
are `{ error: ... }`. -/
structure ProfileResp : Type where
  status : Nat
  success : Option Bool
  error : Option String
  profile : Option ProfileData
deriving DecidableEq, Repr

/-- The Clearbit logo enrichment: when Finnhub has no logo but a `weburl`,
probe Clearbit (`clearbitLogo` = the probe result, `none` on 404/timeout). -/
def logoEnrich (p : ProfileData) (clearbitLogo : Option String) : ProfileData :=
  if strTruthy p.logo = false && strTruthy p.weburl then
    match clearbitLogo with
    | some l => { p with logo := some l }
    | none => p
  else p

/-- The `try`/`catch` part of the profile handler.  The catch block serves
any cached entry regardless of age, else a bare `{ error }` with status
`error.response?.status || 500` (simplified to 500). -/
def getProfileTry (s : String) (cached : Option (CacheEntry ProfileData))
    (cache : Cache ProfileData) (now : Int) (fetch : Fetch ProfileData)
    (clearbitLogo : Option String) : HandlerOut ProfileResp (Cache ProfileData) :=
  match fetch with
  | .success profileData =>
    let enriched := logoEnrich profileData clearbitLogo
    ⟨{ status := 200, success := none, error := none, profile := some enriched },
      cacheSet cache s ⟨now, enriched⟩, true⟩
  | .failure _ =>
    match cached with
    | some e =>
      ⟨{ status := 200, success := none, error := none, profile := some e.data },
        cache, true⟩
    | none =>
      ⟨{ status := 500, success := none,
         error := some "Failed to fetch company profile", profile := none },
        cache, true⟩

/-- The profile request handler (`module.exports = async (req, res) => ...`). -/
def getProfile (symbol : Option String) (hasApiKey : Bool)
    (cache : Cache ProfileData) (now : Int) (fetch : Fetch ProfileData)
    (clearbitLogo : Option String) : HandlerOut ProfileResp (Cache ProfileData) :=
  if strTruthy symbol = false then
    ⟨{ status := 400, success := none, error := some "Missing symbol", profile := none },
      cache, false⟩
  else if hasApiKey = false then
    ⟨{ status := 500, success := none,
       error := some "FINNHUB_API_KEY not configured", profile := none }, cache, false⟩
  else
    let s := symbol.getD ""
    let cached := cacheGet cache s
    match cached with
    | some e =>
      if isFresh e CACHE_DURATION now then
        ⟨{ status := 200, success := none, error := none, profile := some e.data },
          cache, false⟩
      else getProfileTry s cached cache now fetch clearbitLogo
    | none => getProfileTry s cached cache now fetch clearbitLogo

end Profile

/-! ## Basic-financials module (Finnhub `stock/metric`) -/

namespace Financials

/-- `const CACHE_DURATION = 24 * 60 * 60 * 1000; // 24 hours` -/
def CACHE_DURATION : Int := 24 * 60 * 60 * 1000

/-- JSON-ish stand-in for the opaque metric/series blobs the handler passes
through without inspecting. -/
abbrev Blob : Type := List (String × Rat)

/-- Parsed body of the `stock/metric` call (`errorField` models
`data.error`). -/
structure FinBody : Type where
  errorField : Option String
  symbol : Option String
  metric : Option Blob
  series : Option Blob
  metricType : Option String
deriving DecidableEq, Repr

/-- The success payload the handler builds. -/
structure FinPayload : Type where
  symbol : Option String
  metric : Option Blob
  series : Option Blob
  metricType : Option String
deriving DecidableEq, Repr

/-- A response of the financials endpoint (also what `financialsCache`
stores). -/
inductive FinResp : Type where
  | ok (data : FinPayload) : FinResp
  | err (error : String) : FinResp
deriving DecidableEq, Repr

/-- The `try`/`catch` part of `getBasicFinancials`.  NOTE: neither the
`data.error` branch nor the catch block consults the cache. -/
def getBasicFinancialsTry (s : String) (cache : Cache FinResp) (now : Int)
    (fetch : Fetch FinBody) : HandlerOut FinResp (Cache FinResp) :=
  match fetch with
  | .failure msg => ⟨.err msg, cache, true⟩
  | .success data =>
    if strTruthy data.errorField then
      ⟨.err (data.errorField.getD ""), cache, true⟩
    else
      let responseData := FinResp.ok
        { symbol := data.symbol, metric := data.metric,
          series := data.series, metricType := data.metricType }
      ⟨responseData, cacheSet cache s ⟨now, responseData⟩, true⟩

/-- `getBasicFinancials(req, res)`. -/
def getBasicFinancials (symbol : Option String) (hasFinnhubKey : Bool)
    (cache : Cache FinResp) (now : Int) (fetch : Fetch FinBody) :
    HandlerOut FinResp (Cache FinResp) :=
  if strTruthy symbol = false then
    ⟨.err "symbol parameter is required", cache, false⟩
  else if hasFinnhubKey = false then
    ⟨.err "Finnhub API key not configured", cache, false⟩
  else
    let s := symbol.getD ""
    let cached := cacheGet cache s
    match cached with
    | some e =>
      if isFresh e CACHE_DURATION now then ⟨e.data, cache, false⟩
      else getBasicFinancialsTry s cache now fetch
    | none => getBasicFinancialsTry s cache now fetch

end Financials

/-! ## Alpha Vantage news-sentiment module (the 1-hour news cache) -/

namespace AvNews

/-- `const CACHE_DURATION = 60 * 60 * 1000; // 1 hour in milliseconds` -/
def CACHE_DURATION : Int := 60 * 60 * 1000

/-- One `ticker_sentiment` entry (`relevance` is the parsed
`relevance_score`; non-numeric scores are out of scope). -/
structure TickerSentiment : Type where
  ticker : String
  relevance : Rat
deriving DecidableEq, Repr

/-- A raw Alpha Vantage feed item; the fields copied through unchanged
(authors, banner image, topics, sentiment labels) are omitted. -/
structure FeedItem : Type where
  title : String
  url : String
  timePublished : String
  tickerSentimentList : List TickerSentiment
deriving DecidableEq, Repr

/-- A formatted news item (pass-through fields omitted). -/
structure FormattedAvNews : Type where
  title : String
  url : String
  timePublished : String
  tickerSentiment : Option TickerSentiment
  relevanceScore : Rat
deriving DecidableEq, Repr

/-- The per-item mapping inside `feed.map(item => ...)`. -/
def formatAvItem (ticker : String) (item : FeedItem) : FormattedAvNews :=
  let tickerSentiment := item.tickerSentimentList.find? (fun t => t.ticker = ticker)
  let relevanceScore :=
    match tickerSentiment with
    | some t => t.relevance
    | none => 0
  { title := item.title, url := item.url, timePublished := item.timePublished,
    tickerSentiment := tickerSentiment, relevanceScore := relevanceScore }

/-- Parsed body of the NEWS_SENTIMENT call. -/
structure AvNewsBody : Type where
  note : Option String
  errorMessage : Option String
  information : Option String
  items : Option String
  feed : Option (List FeedItem)
deriving DecidableEq, Repr

/-- The success payload (`sentiment_score_definition` and
`relevance_score_definition` pass-throughs omitted). -/
structure AvNewsPayload : Type where
  items : String
  feed : List FormattedAvNews
deriving DecidableEq, Repr

/-- A response of the AV news endpoint (also what its `newsCache` stores). -/
inductive AvNewsResp : Type where
  | ok (data : AvNewsPayload) : AvNewsResp
  | err (error : String) : AvNewsResp
deriving DecidableEq, Repr

/-- The `try`/`catch` part of the AV `getNewsSentiment`.  NOTE: an empty feed
is cached and returned as success, and the catch block returns a typed
failure WITHOUT consulting the cache. -/
def getNewsSentimentTry (t cacheKey : String)
    (cached : Option (CacheEntry AvNewsResp)) (cache : Cache AvNewsResp) (now : Int)
    (fetch : Fetch AvNewsBody) : HandlerOut AvNewsResp (Cache AvNewsResp) :=
  match fetch with
  | .failure msg => ⟨.err msg, cache, true⟩
  | .success body =>
    if avSoftError body.note body.errorMessage body.information then
      match cached with
      | some e => ⟨e.data, cache, true⟩
      | none =>
        ⟨.err (avErrorMsg body.note body.errorMessage body.information ""), cache, true⟩
    else
      let feed := body.feed.getD []
      let formattedNews :=
        sortDescBy (fun n => n.relevanceScore)
          ((feed.map (formatAvItem t)).filter
            (fun item => decide ((1 : Rat)/10 ≤ item.relevanceScore)))
      let responseData := AvNewsResp.ok
        { items := jsOrStrD body.items "0", feed := formattedNews }
      ⟨responseData, cacheSet cache cacheKey ⟨now, responseData⟩, true⟩

/-- The Alpha Vantage `getNewsSentiment(req, res)`: compound cache key
`` ticker ++ "_" ++ limit ++ "_" ++ (topics or "") ++ "_" ++ sort ``,
1-hour TTL. -/
def getNewsSentiment (ticker limit topics sortParam : Option String)
    (hasAlphaVantageKey : Bool) (cache : Cache AvNewsResp) (now : Int)
    (fetch : Fetch AvNewsBody) : HandlerOut AvNewsResp (Cache AvNewsResp) :=
  if strTruthy ticker = false then
    ⟨.err "ticker parameter is required", cache, false⟩
  else if hasAlphaVantageKey = false then
    ⟨.err "Alpha Vantage API key not configured", cache, false⟩
  else
    let t := ticker.getD ""
    let cacheKey := t ++ "_" ++ limit.getD "10" ++ "_" ++ jsOrStrD topics "" ++ "_" ++
      sortParam.getD "LATEST"
    let cached := cacheGet cache cacheKey
    match cached with
    | some e =>
      if isFresh e CACHE_DURATION now then ⟨e.data, cache, false⟩
      else getNewsSentimentTry t cacheKey cached cache now fetch
    | none => getNewsSentimentTry t cacheKey cached cache now fetch

end AvNews

/-! ## Recommendations module (Finnhub `stock/recommendation`) -/

namespace Recommendations

/-- `const CACHE_DURATION = 24 * 60 * 60 * 1000; // 24 hours` -/
def CACHE_DURATION : Int := 24 * 60 * 60 * 1000

/-- One Finnhub recommendation record (passed through unmodified). -/
structure RecRecord : Type where
  period : String
  strongBuy : Int
  buy : Int
  hold : Int
  sell : Int
  strongSell : Int
deriving DecidableEq, Repr

/-- Body of the recommendation call: Finnhub answers either an object with a
truthy `error` field or a plain array. -/
inductive RecBody : Type where
  | errObj (error : String) : RecBody
  | arr (data : List RecRecord) : RecBody
deriving DecidableEq, Repr

/-- A response of the recommendations endpoint (also what its cache stores). -/
inductive RecResp : Type where
  | ok (data : List RecRecord) : RecResp
  | err (error : String) : RecResp
deriving DecidableEq, Repr

/-- The `try`/`catch` part of `getRecommendations`.  NOTE: the empty-array
branch returns a typed failure without consulting the cache; the `data.error`
branch and the catch block do fall back. -/
def getRecommendationsTry (s : String) (cached : Option (CacheEntry RecResp))
    (cache : Cache RecResp) (now : Int) (fetch : Fetch RecBody) :
    HandlerOut RecResp (Cache RecResp) :=
  match fetch with
  | .failure msg =>
    match cached with
    | some e => ⟨e.data, cache, true⟩
    | none => ⟨.err msg, cache, true⟩
  | .success body =>
    match body with
    | .errObj msg =>
      match cached with
      | some e => ⟨e.data, cache, true⟩
      | none => ⟨.err msg, cache, true⟩
    | .arr data =>
      if data.isEmpty then
        ⟨.err "No recommendation data available for this symbol", cache, true⟩
      else
        let responseData := RecResp.ok (data.take 6)
        ⟨responseData, cacheSet cache s ⟨now, responseData⟩, true⟩

/-- `getRecommendations(req, res)`. -/
def getRecommendations (symbol : Option String) (hasFinnhubKey : Bool)
    (cache : Cache RecResp) (now : Int) (fetch : Fetch RecBody) :
    HandlerOut RecResp (Cache RecResp) :=
  if strTruthy symbol = false then
    ⟨.err "symbol parameter is required", cache, false⟩
  else if hasFinnhubKey = false then
    ⟨.err "Finnhub API key not configured", cache, false⟩
  else
    let s := symbol.getD ""
    let cached := cacheGet cache s
    match cached with
    | some e =>
      if isFresh e CACHE_DURATION now then ⟨e.data, cache, false⟩
      else getRecommendationsTry s cached cache now fetch
    | none => getRecommendationsTry s cached cache now fetch

end Recommendations

/-! ## Remaining TTL constants -/

namespace CoinPaprika

/-- `const CACHE_DURATION = 2 * 60 * 1000; // 2 minutes` — the crypto coin
data cache of the CoinPaprika router. -/
def CACHE_DURATION : Int := 2 * 60 * 1000

end CoinPaprika

namespace AiSummary

/-- `new NodeCache({ stdTTL: 86400 })` — the AI-summary cache TTL, in
SECONDS (NodeCache convention), i.e. 24 hours. -/
def stdTTL : Int := 86400

end AiSummary

/-! ## Helper lemmas about the handlers -/

theorem getChartDataTry_calledUpstream (cacheKey rangeV intervalV : String)
    (cached : Option (CacheEntry YahooChart.ChartResp)) (cache : Cache YahooChart.ChartResp)
    (now : Int) (fetch : Fetch (Option YahooChart.ChartObj)) :
    (YahooChart.getChartDataTry cacheKey rangeV intervalV cached cache now fetch).calledUpstream
      = true := by
  rcases fetch with m | b
  · rcases cached with _ | e <;> rfl
  · rcases b with _ | chart
    · rcases cached with _ | e <;> rfl
    · obtain ⟨error, result⟩ := chart
      rcases error with _ | descr
      · rcases result with _ | res
        · rcases cached with _ | e <;> rfl
        · obtain ⟨ts, qa, meta⟩ := res
          rcases ts with _ | tsl
          · rcases cached with _ | e <;> rfl
          · rcases qa with _ | q
            · rcases cached with _ | e <;> rfl
            · rfl
      · rcases cached with _ | e <;> rfl

theorem getUsdtNokRateTry_calledUpstream (cached : Option (CacheEntry Firi.RateResp))
    (cache : Cache Firi.RateResp) (now : Int) (fetch : Fetch (List Firi.Market)) :
    (Firi.getUsdtNokRateTry cached cache now fetch).calledUpstream = true := by
  rcases fetch with m | markets
  · rcases cached with _ | e <;> rfl
  · rfl

/-- The entry for `s` is absent from the cache or expired at `now` — the two
situations in which the loop does not serve `s` from the fresh-cache path. -/
def PreviousCloses.noFreshEntry (c : Cache Rat) (s : String) (now : Int) : Prop :=
  ∀ e, cacheGet c s = some e → isFresh e PreviousCloses.CACHE_DURATION now = false

theorem processSymbolFetch_omits (fetch : String → Fetch (Option PreviousCloses.PCQuote))
    (now : Int) (s : String)
    (hbad : PreviousCloses.symbolFetchOmitted fetch s = true)
    (acc : List (String × Rat) × Cache Rat) (x : String)
    (hc : PreviousCloses.noFreshEntry acc.2 s now) (hl : ∀ p ∈ acc.1, p.1 ≠ s) :
    (∀ p ∈ (PreviousCloses.processSymbolFetch fetch now acc x).1, p.1 ≠ s) ∧
    PreviousCloses.noFreshEntry (PreviousCloses.processSymbolFetch fetch now acc x).2
      s now := by
  rcases hf : fetch x with m | b
  · exact ⟨by simpa [PreviousCloses.processSymbolFetch, hf] using hl,
      by simpa [PreviousCloses.processSymbolFetch, hf] using hc⟩
  · rcases b with _ | q
    · exact ⟨by simpa [PreviousCloses.processSymbolFetch, hf] using hl,
        by simpa [PreviousCloses.processSymbolFetch, hf] using hc⟩
    · rcases hq : q.pc with _ | v
      · exact ⟨by simpa [PreviousCloses.processSymbolFetch, hf, hq] using hl,
          by simpa [PreviousCloses.processSymbolFetch, hf, hq] using hc⟩
      · have hx : x ≠ s := by
          intro hxeq
          subst hxeq
          unfold PreviousCloses.symbolFetchOmitted at hbad
          rw [hf] at hbad
          simp [hq] at hbad
        constructor
        · intro p hp
          simp only [PreviousCloses.processSymbolFetch, hf, hq] at hp
          rcases List.mem_append.mp hp with h | h
          · exact hl p h
          · rw [List.mem_singleton.mp h]
            exact hx
        · intro e he
          simp only [PreviousCloses.processSymbolFetch, hf, hq] at he
          rw [cacheGet_set_other _ _ _ _ (Ne.symm hx)] at he
          exact hc e he

theorem processSymbol_omits (fetch : String → Fetch (Option PreviousCloses.PCQuote))
    (now : Int) (s : String)
    (hbad : PreviousCloses.symbolFetchOmitted fetch s = true)
    (acc : List (String × Rat) × Cache Rat) (x : String)
    (hc : PreviousCloses.noFreshEntry acc.2 s now) (hl : ∀ p ∈ acc.1, p.1 ≠ s) :
    (∀ p ∈ (PreviousCloses.processSymbol fetch now acc x).1, p.1 ≠ s) ∧
    PreviousCloses.noFreshEntry (PreviousCloses.processSymbol fetch now acc x).2
      s now := by
  rcases hg : cacheGet acc.2 x with _ | e
  · have h := processSymbolFetch_omits fetch now s hbad acc x hc hl
    simpa [PreviousCloses.processSymbol, hg] using h
  · by_cases hfr : isFresh e PreviousCloses.CACHE_DURATION now = true
    · have hx : x ≠ s := by
        intro hxeq
        subst hxeq
        have := hc e hg
        rw [hfr] at this
        exact Bool.noConfusion this
      constructor
      · intro p hp
        simp only [PreviousCloses.processSymbol, hg, hfr, if_true] at hp
        rcases List.mem_append.mp hp with h | h
        · exact hl p h
        · rw [List.mem_singleton.mp h]
          exact hx
      · intro e' he'
        simp only [PreviousCloses.processSymbol, hg, hfr, if_true] at he'
        exact hc e' he'
    · have h := processSymbolFetch_omits fetch now s hbad acc x hc hl
      simpa [PreviousCloses.processSymbol, hg, hfr] using h

theorem foldl_processSymbol_omits (fetch : String → Fetch (Option PreviousCloses.PCQuote))
    (now : Int) (s : String)
    (hbad : PreviousCloses.symbolFetchOmitted fetch s = true) :
    ∀ (syms : List String) (acc : List (String × Rat) × Cache Rat),
      PreviousCloses.noFreshEntry acc.2 s now → (∀ p ∈ acc.1, p.1 ≠ s) →
      (∀ p ∈ (syms.foldl (PreviousCloses.processSymbol fetch now) acc).1, p.1 ≠ s) ∧
      PreviousCloses.noFreshEntry
        (syms.foldl (PreviousCloses.processSymbol fetch now) acc).2 s now := by
  intro syms
  induction syms with
  | nil => exact fun acc hc hl => ⟨hl, hc⟩
  | cons x rest ih =>
    intro acc hc hl
    obtain ⟨hl', hc'⟩ := processSymbol_omits fetch now s hbad acc x hc hl
    simpa [List.foldl_cons] using ih _ hc' hl'

theorem processSymbolFetch_append (fetch : String → Fetch (Option PreviousCloses.PCQuote))
    (now : Int) (acc : List (String × Rat) × Cache Rat) (x : String) :
    ∃ q, (PreviousCloses.processSymbolFetch fetch now acc x).1 = acc.1 ++ q := by
  rcases hf : fetch x with m | b
  · exact ⟨[], by simp [PreviousCloses.processSymbolFetch, hf]⟩
  · rcases b with _ | q
    · exact ⟨[], by simp [PreviousCloses.processSymbolFetch, hf]⟩
    · rcases hq : q.pc with _ | v
      · exact ⟨[], by simp [PreviousCloses.processSymbolFetch, hf, hq]⟩
      · exact ⟨[(x, v)], by simp [PreviousCloses.processSymbolFetch, hf, hq]⟩

theorem processSymbol_append (fetch : String → Fetch (Option PreviousCloses.PCQuote))
    (now : Int) (acc : List (String × Rat) × Cache Rat) (x : String) :
    ∃ q, (PreviousCloses.processSymbol fetch now acc x).1 = acc.1 ++ q := by
  rcases hg : cacheGet acc.2 x with _ | e
  · obtain ⟨q, hq⟩ := processSymbolFetch_append fetch now acc x
    exact ⟨q, by simpa [PreviousCloses.processSymbol, hg] using hq⟩
  · by_cases hfr : isFresh e PreviousCloses.CACHE_DURATION now = true
    · exact ⟨[(x, e.data)], by simp [PreviousCloses.processSymbol, hg, hfr]⟩
    · obtain ⟨q, hq⟩ := processSymbolFetch_append fetch now acc x
      exact ⟨q, by simpa [PreviousCloses.processSymbol, hg, hfr] using hq⟩

theorem processSymbolFetch_cacheShape (fetch : String → Fetch (Option PreviousCloses.PCQuote))
    (now : Int) (acc : List (String × Rat) × Cache Rat) (x : String) :
    (PreviousCloses.processSymbolFetch fetch now acc x).2 = acc.2 ∨
    ∃ e, (PreviousCloses.processSymbolFetch fetch now acc x).2 = cacheSet acc.2 x e := by
  rcases hf : fetch x with m | b
  · exact Or.inl (by simp [PreviousCloses.processSymbolFetch, hf])
  · rcases b with _ | q
    · exact Or.inl (by simp [PreviousCloses.processSymbolFetch, hf])
    · rcases hq : q.pc with _ | v
      · exact Or.inl (by simp [PreviousCloses.processSymbolFetch, hf, hq])
      · exact Or.inr ⟨⟨now, v⟩, by simp [PreviousCloses.processSymbolFetch, hf, hq]⟩

theorem processSymbol_cacheShape (fetch : String → Fetch (Option PreviousCloses.PCQuote))
    (now : Int) (acc : List (String × Rat) × Cache Rat) (x : String) :
    (PreviousCloses.processSymbol fetch now acc x).2 = acc.2 ∨
    ∃ e, (PreviousCloses.processSymbol fetch now acc x).2 = cacheSet acc.2 x e := by
  rcases hg : cacheGet acc.2 x with _ | e
  · rcases processSymbolFetch_cacheShape fetch now acc x with h | ⟨e, h⟩
    · exact Or.inl (by simpa [PreviousCloses.processSymbol, hg] using h)
    · exact Or.inr ⟨e, by simpa [PreviousCloses.processSymbol, hg] using h⟩
  · by_cases hfr : isFresh e PreviousCloses.CACHE_DURATION now = true
    · exact Or.inl (by simp [PreviousCloses.processSymbol, hg, hfr])
    · rcases processSymbolFetch_cacheShape fetch now acc x with h | ⟨e', h⟩
      · exact Or.inl (by simpa [PreviousCloses.processSymbol, hg, hfr] using h)
      · exact Or.inr ⟨e', by simpa [PreviousCloses.processSymbol, hg, hfr] using h⟩

theorem foldl_processSymbol_append (fetch : String → Fetch (Option PreviousCloses.PCQuote))
    (now : Int) :
    ∀ (syms : List String) (acc : List (String × Rat) × Cache Rat),
      ∃ q, (syms.foldl (PreviousCloses.processSymbol fetch now) acc).1 = acc.1 ++ q := by
  intro syms
  induction syms with
  | nil => exact fun acc => ⟨[], (List.append_nil _).symm⟩
  | cons x rest ih =>
    intro acc
    obtain ⟨q1, h1⟩ := processSymbol_append fetch now acc x
    obtain ⟨q2, h2⟩ := ih (PreviousCloses.processSymbol fetch now acc x)
    exact ⟨q1 ++ q2, by rw [List.foldl_cons, h2, h1, List.append_assoc]⟩

theorem foldl_processSymbol_includes (fetch : String → Fetch (Option PreviousCloses.PCQuote))
    (now : Int) (s' : String) (v : Rat)
    (hgood : fetch s' = Fetch.success (some ⟨some v⟩)) :
    ∀ (syms : List String) (acc : List (String × Rat) × Cache Rat),
      PreviousCloses.noFreshEntry acc.2 s' now → s' ∈ syms →
      (s', v) ∈ (syms.foldl (PreviousCloses.processSymbol fetch now) acc).1 := by
  intro syms
  induction syms with
  | nil => intro acc _ h; cases h
  | cons x rest ih =>
    intro acc hc hmem
    by_cases hx : x = s'
    · subst hx
      have hstep : PreviousCloses.processSymbol fetch now acc x =
          (acc.1 ++ [(x, v)], cacheSet acc.2 x ⟨now, v⟩) := by
        rcases hg : cacheGet acc.2 x with _ | e
        · simp [PreviousCloses.processSymbol, hg, PreviousCloses.processSymbolFetch, hgood]
        · have hfr := hc e hg
          simp [PreviousCloses.processSymbol, hg, hfr,
            PreviousCloses.processSymbolFetch, hgood]
      rw [List.foldl_cons, hstep]
      obtain ⟨q, hq⟩ := foldl_processSymbol_append fetch now rest
        (acc.1 ++ [(x, v)], cacheSet acc.2 x ⟨now, v⟩)
      rw [hq]
      exact List.mem_append.mpr (Or.inl (List.mem_append.mpr
        (Or.inr (List.mem_singleton.mpr rfl))))
    · rcases List.mem_cons.mp hmem with h | h
      · exact absurd h.symm hx
      · have hc' : PreviousCloses.noFreshEntry
            (PreviousCloses.processSymbol fetch now acc x).2 s' now := by
          rcases processSymbol_cacheShape fetch now acc x with hsh | ⟨e, hsh⟩
          · rw [hsh]; exact hc
          · intro e' he'
            rw [hsh, cacheGet_set_other _ _ _ _ (fun hh => hx hh.symm)] at he'
            exact hc e' he'
        rw [List.foldl_cons]
        exact ih _ hc' h

/-! ## Claims -/

/-- C8 (amended): the per-store TTL constants, as they stand in the source:
2 minutes for crypto coin data; 5 minutes for FX, search and charts;
30 seconds for balances and 1 minute for the FX-pair rate; 1 hour for
previous-closes; 6 hours for the Finnhub news store but 1 HOUR for the
Alpha Vantage news store; 24 hours for earnings, estimates, yahoo-earnings,
financials, profiles, recommendations and AI summaries. -/
theorem C8_ttl_constants :
    CoinPaprika.CACHE_DURATION = 2 * 60 * 1000 ∧
    ExchangeRates.CACHE_DURATION = 5 * 60 * 1000 ∧
    Search.CACHE_DURATION = 5 * 60 * 1000 ∧
    YahooChart.CACHE_DURATION = 5 * 60 * 1000 ∧
    Firi.BALANCES_CACHE_DURATION = 30000 ∧
    Firi.NOK_RATE_CACHE_DURATION = 60000 ∧
    PreviousCloses.CACHE_DURATION = 60 * 60 * 1000 ∧
    FinnhubNews.CACHE_DURATION = 6 * 60 * 60 * 1000 ∧
    AvNews.CACHE_DURATION = 60 * 60 * 1000 ∧
    Earnings.CACHE_DURATION = 24 * 60 * 60 * 1000 ∧
    YahooEarnings.CACHE_DURATION = 24 * 60 * 60 * 1000 ∧
    Financials.CACHE_DURATION = 24 * 60 * 60 * 1000 ∧
    Profile.CACHE_DURATION = 24 * 60 * 60 * 1000 ∧
    Recommendations.CACHE_DURATION = 24 * 60 * 60 * 1000 ∧
    AiSummary.stdTTL * 1000 = 24 * 60 * 60 * 1000 := by
  refine ⟨rfl, rfl, rfl, rfl, rfl, rfl, rfl, rfl, rfl, rfl, rfl, rfl, rfl, rfl, rfl⟩

/-- C8 (counterexample): the claim lists "6 hours for news", but the Alpha
Vantage news store — a news-domain cache — has a 1-hour TTL, not 6 hours. -/
theorem C8_news_ttl_counterexample :
    AvNews.CACHE_DURATION = 60 * 60 * 1000 ∧
    AvNews.CACHE_DURATION ≠ 6 * 60 * 60 * 1000 := by
  refine ⟨rfl, by decide⟩

/-- C4: an entry stored at time `T` with TTL `d` is fresh exactly when
`now - T < d`; on the chart and FX-pair-rate endpoints, a lookup strictly
before `T + d` returns the cached value without a provider call, and a lookup
at or after `T + d` goes to the upstream fetch. -/
theorem C4_ttl_boundary :
    (∀ (α : Type) (e : CacheEntry α) (ttl now : Int),
        isFresh e ttl now = true ↔ now - e.timestamp < ttl) ∧
    (∀ (symbol range interval : Option String) (cache : Cache YahooChart.ChartResp)
        (now : Int) (fetch : Fetch (Option YahooChart.ChartObj))
        (e : CacheEntry YahooChart.ChartResp),
        strTruthy symbol = true →
        cacheGet cache ((symbol.getD "") ++ "_" ++ (range.getD "1d") ++ "_" ++
          (interval.getD "5m")) = some e →
        ((now - e.timestamp < YahooChart.CACHE_DURATION →
            YahooChart.getChartData symbol range interval cache now fetch =
              ⟨e.data, cache, false⟩) ∧
         (YahooChart.CACHE_DURATION ≤ now - e.timestamp →
            (YahooChart.getChartData symbol range interval cache now fetch).calledUpstream
              = true))) ∧
    (∀ (cache : Cache Firi.RateResp) (now : Int) (fetch : Fetch (List Firi.Market))
        (e : CacheEntry Firi.RateResp),
        cacheGet cache "rate" = some e →
        ((now - e.timestamp < Firi.NOK_RATE_CACHE_DURATION →
            Firi.getUsdtNokRate cache now fetch = ⟨e.data, cache, false⟩) ∧
         (Firi.NOK_RATE_CACHE_DURATION ≤ now - e.timestamp →
            (Firi.getUsdtNokRate cache now fetch).calledUpstream = true))) := by
  refine ⟨fun α e ttl now => by simp [isFresh], ?_, ?_⟩
  · intro symbol range interval cache now fetch e hs hc
    constructor
    · intro hfresh
      simp [YahooChart.getChartData, hs, hc, isFresh, hfresh]
    · intro hstale
      have hnf : isFresh e YahooChart.CACHE_DURATION now = false := by
        simp [isFresh, not_lt.mpr hstale]
      simp [YahooChart.getChartData, hs, hc, hnf, getChartDataTry_calledUpstream]
  · intro cache now fetch e hc
    constructor
    · intro hfresh
      simp [Firi.getUsdtNokRate, hc, isFresh, hfresh]
    · intro hstale
      have hnf : isFresh e Firi.NOK_RATE_CACHE_DURATION now = false := by
        simp [isFresh, not_lt.mpr hstale]
      simp [Firi.getUsdtNokRate, hc, hnf, getUsdtNokRateTry_calledUpstream]

/-- C4 (witness): concrete instance — an entry stored at `T = 0` with the
5-minute chart TTL is fresh at `now = 299999` and stale at `now = 300000`. -/
theorem C4_ttl_boundary_witness :
    isFresh (⟨0, YahooChart.ChartResp.err "x"⟩ : CacheEntry YahooChart.ChartResp)
        YahooChart.CACHE_DURATION 299999 = true ∧
    YahooChart.getChartData (some "AAPL") none none
        [("AAPL_1d_5m", ⟨0, YahooChart.ChartResp.err "x"⟩)] 299999
        (Fetch.failure "net") =
      ⟨YahooChart.ChartResp.err "x", [("AAPL_1d_5m", ⟨0, YahooChart.ChartResp.err "x"⟩)],
        false⟩ ∧
    (YahooChart.getChartData (some "AAPL") none none
        [("AAPL_1d_5m", ⟨0, YahooChart.ChartResp.err "x"⟩)] 300000
        (Fetch.failure "net")).calledUpstream = true ∧
    Firi.getUsdtNokRate [("rate", ⟨0, ⟨some 10⟩⟩)] 59999 (Fetch.failure "net") =
      ⟨⟨some 10⟩, [("rate", ⟨0, ⟨some 10⟩⟩)], false⟩ ∧
    (Firi.getUsdtNokRate [("rate", ⟨0, ⟨some 10⟩⟩)] 60000 (Fetch.failure "net")).calledUpstream
      = true := by
  refine ⟨(C4_ttl_boundary.1 YahooChart.ChartResp
      ⟨0, YahooChart.ChartResp.err "x"⟩ YahooChart.CACHE_DURATION 299999).mpr
      (by decide), ?_, ?_, ?_, ?_⟩
  · exact ((C4_ttl_boundary.2.1 (some "AAPL") none none
      [("AAPL_1d_5m", ⟨0, YahooChart.ChartResp.err "x"⟩)] 299999 (Fetch.failure "net")
      ⟨0, YahooChart.ChartResp.err "x"⟩ (by decide) (by decide)).1 (by decide))
  · exact ((C4_ttl_boundary.2.1 (some "AAPL") none none
      [("AAPL_1d_5m", ⟨0, YahooChart.ChartResp.err "x"⟩)] 300000 (Fetch.failure "net")
      ⟨0, YahooChart.ChartResp.err "x"⟩ (by decide) (by decide)).2 (by decide))
  · exact ((C4_ttl_boundary.2.2 [("rate", ⟨0, ⟨some 10⟩⟩)] 59999 (Fetch.failure "net")
      ⟨0, ⟨some 10⟩⟩ (by decide)).1 (by decide))
  · exact ((C4_ttl_boundary.2.2 [("rate", ⟨0, ⟨some 10⟩⟩)] 60000 (Fetch.failure "net")
      ⟨0, ⟨some 10⟩⟩ (by decide)).2 (by decide))

/-- C7: the earnings cache-clear with a symbol removes exactly that key from
the earnings store AND the companion estimates store, leaving every other key
unchanged; without a symbol it empties both stores; the yahoo-earnings clear
does the same on its single store (key = uppercased symbol); both always
acknowledge with `success: true`. -/
theorem C7_cache_clear :
    (∀ (s : String) (ec : Cache Earnings.EarningsResp) (sc : Cache Earnings.EstimatesResp),
        s ≠ "" →
        (cacheGet (Earnings.clearCache (some s) ec sc).earningsCache s = none ∧
         cacheGet (Earnings.clearCache (some s) ec sc).estimatesCache s = none ∧
         (∀ k, k ≠ s → cacheGet (Earnings.clearCache (some s) ec sc).earningsCache k =
            cacheGet ec k) ∧
         (∀ k, k ≠ s → cacheGet (Earnings.clearCache (some s) ec sc).estimatesCache k =
            cacheGet sc k) ∧
         (Earnings.clearCache (some s) ec sc).success = true)) ∧
    (∀ (ec : Cache Earnings.EarningsResp) (sc : Cache Earnings.EstimatesResp),
        ((∀ k, cacheGet (Earnings.clearCache none ec sc).earningsCache k = none) ∧
         (∀ k, cacheGet (Earnings.clearCache none ec sc).estimatesCache k = none) ∧
         (Earnings.clearCache none ec sc).success = true)) ∧
    (∀ (s : String) (ec : Cache YahooEarnings.EarningsData),
        s ≠ "" →
        (cacheGet (YahooEarnings.clearCache (some s) ec).earningsCache (jsToUpper s) = none ∧
         (∀ k, k ≠ jsToUpper s →
            cacheGet (YahooEarnings.clearCache (some s) ec).earningsCache k = cacheGet ec k) ∧
         (YahooEarnings.clearCache (some s) ec).success = true)) ∧
    (∀ (ec : Cache YahooEarnings.EarningsData),
        ((∀ k, cacheGet (YahooEarnings.clearCache none ec).earningsCache k = none) ∧
         (YahooEarnings.clearCache none ec).success = true)) := by
  refine ⟨?_, ?_, ?_, ?_⟩
  · intro s ec sc hs
    have ht : strTruthy (some s) = true := by simp [strTruthy, hs]
    refine ⟨?_, ?_, ?_, ?_, ?_⟩ <;>
      simp [Earnings.clearCache, ht, cacheGet_delete_self, cacheGet_delete_other]
    · intro k hk
      simp [cacheGet_delete_other _ _ _ hk]
    · intro k hk
      simp [cacheGet_delete_other _ _ _ hk]
  · intro ec sc
    refine ⟨?_, ?_, ?_⟩ <;> simp [Earnings.clearCache, strTruthy]
  · intro s ec hs
    have ht : strTruthy (some s) = true := by simp [strTruthy, hs]
    refine ⟨?_, ?_, ?_⟩ <;> simp [YahooEarnings.clearCache, ht]
    intro k hk
    simp [cacheGet_delete_other _ _ _ hk]
  · intro ec
    refine ⟨?_, ?_⟩ <;> simp [YahooEarnings.clearCache, strTruthy]

/-- C10: on the previous-closes endpoint, a symbol whose per-symbol fetch
fails (or whose quote lacks `pc`) is silently omitted from the result map —
with NO stale fallback: this holds whether the symbol has no cache entry or
an expired one — while the overall response still reports success; a symbol
whose fetch succeeds with a `pc` value appears in the results. -/
theorem C10_previous_closes_partial :
    (∀ (symbols : Option String) (cache : Cache Rat) (now : Int)
        (fetch : String → Fetch (Option PreviousCloses.PCQuote)) (s : String),
        strTruthy symbols = true →
        PreviousCloses.symbolFetchOmitted fetch s = true →
        PreviousCloses.noFreshEntry cache s now →
        ∃ rs, (PreviousCloses.previousCloses symbols true cache now fetch).resp =
            PreviousCloses.PCResp.ok rs ∧ ∀ p ∈ rs, p.1 ≠ s) ∧
    (∀ (symbols : Option String) (cache : Cache Rat) (now : Int)
        (fetch : String → Fetch (Option PreviousCloses.PCQuote)) (s' : String) (v : Rat),
        strTruthy symbols = true →
        fetch s' = Fetch.success (some ⟨some v⟩) →
        PreviousCloses.noFreshEntry cache s' now →
        s' ∈ PreviousCloses.splitComma (symbols.getD "") →
        ∃ rs, (PreviousCloses.previousCloses symbols true cache now fetch).resp =
            PreviousCloses.PCResp.ok rs ∧ (s', v) ∈ rs) := by
  constructor
  · intro symbols cache now fetch s hsym hbad hc
    obtain ⟨hl, -⟩ := foldl_processSymbol_omits fetch now s hbad
      (PreviousCloses.splitComma (symbols.getD "")) ([], cache) hc (by intro p hp; cases hp)
    refine ⟨_, ?_, hl⟩
    simp [PreviousCloses.previousCloses, hsym]
  · intro symbols cache now fetch s' v hsym hgood hc hmem
    have hin := foldl_processSymbol_includes fetch now s' v hgood
      (PreviousCloses.splitComma (symbols.getD "")) ([], cache) hc hmem
    refine ⟨_, ?_, hin⟩
    simp [PreviousCloses.previousCloses, hsym]

/-- C10 (witness): symbols "AAPL,FAIL" against a cache holding EXPIRED
entries for both (stored at `T = 0`, requested at `now` = the 1-hour TTL):
"FAIL" times out and is omitted — its stale value 99 is NOT served — while
"AAPL" yields a fresh 100 and appears; the response is success. -/
theorem C10_previous_closes_partial_witness :
    (∃ rs, (PreviousCloses.previousCloses (some "AAPL,FAIL") true
        [("FAIL", ⟨0, 99⟩), ("AAPL", ⟨0, 50⟩)] PreviousCloses.CACHE_DURATION
        (fun s => if s = "AAPL" then Fetch.success (some ⟨some 100⟩)
                  else Fetch.failure "timeout")).resp =
        PreviousCloses.PCResp.ok rs ∧ ∀ p ∈ rs, p.1 ≠ "FAIL") ∧
    (∃ rs, (PreviousCloses.previousCloses (some "AAPL,FAIL") true
        [("FAIL", ⟨0, 99⟩), ("AAPL", ⟨0, 50⟩)] PreviousCloses.CACHE_DURATION
        (fun s => if s = "AAPL" then Fetch.success (some ⟨some 100⟩)
                  else Fetch.failure "timeout")).resp =
        PreviousCloses.PCResp.ok rs ∧ ("AAPL", (100 : Rat)) ∈ rs) := by
  constructor
  · refine C10_previous_closes_partial.1 (some "AAPL,FAIL")
      [("FAIL", ⟨0, 99⟩), ("AAPL", ⟨0, 50⟩)] PreviousCloses.CACHE_DURATION
      (fun s => if s = "AAPL" then Fetch.success (some ⟨some 100⟩)
                else Fetch.failure "timeout") "FAIL"
      (by decide) (by decide) ?_
    intro e he
    rw [show cacheGet [("FAIL", (⟨0, 99⟩ : CacheEntry Rat)), ("AAPL", ⟨0, 50⟩)] "FAIL" =
      some ⟨0, 99⟩ from rfl] at he
    injection he with h
    subst h
    decide
  · refine C10_previous_closes_partial.2 (some "AAPL,FAIL")
      [("FAIL", ⟨0, 99⟩), ("AAPL", ⟨0, 50⟩)] PreviousCloses.CACHE_DURATION
      (fun s => if s = "AAPL" then Fetch.success (some ⟨some 100⟩)
                else Fetch.failure "timeout") "AAPL" 100
      (by decide) (by simp) ?_ (by decide)
    intro e he
    rw [show cacheGet [("FAIL", (⟨0, 99⟩ : CacheEntry Rat)), ("AAPL", ⟨0, 50⟩)] "AAPL" =
      some ⟨0, 50⟩ from rfl] at he
    injection he with h
    subst h
    decide

/-- C9: the balances cache key uses only the first 8 characters of the API
key, so two distinct keys sharing a first-8 prefix share one cache entry:
a fresh entry cached under key `k1` is served verbatim to a request bearing
`k2`, and on upstream failure the `k2` request also falls back to `k1`'s
entry. -/
theorem C9_balances_key_collision :
    ∀ (k1 k2 : String) (serverKey : Option String) (cache : Cache Firi.BalancesResp)
      (now : Int) (fetch : Fetch (List Firi.RawBalance)) (e : CacheEntry Firi.BalancesResp),
      k1 ≠ k2 → k1.take 8 = k2.take 8 → k2.take 8 ≠ "" →
      (Firi.balancesCacheKey k1 = Firi.balancesCacheKey k2 ∧
       (cacheGet cache (Firi.balancesCacheKey k1) = some e →
        ((isFresh e Firi.BALANCES_CACHE_DURATION now = true →
            Firi.getBalances (some k2) serverKey cache now fetch = ⟨e.data, cache, false⟩) ∧
         (∀ msg, fetch = Fetch.failure msg →
            (Firi.getBalances (some k2) serverKey cache now fetch).resp = e.data)))) := by
  intro k1 k2 serverKey cache now fetch e hne h8 htake
  have hkeq : Firi.balancesCacheKey k1 = Firi.balancesCacheKey k2 := by
    simp [Firi.balancesCacheKey, h8]
  have hk2 : k2 ≠ "" := by
    intro h
    apply htake
    rw [h]
    rfl
  have ht : strTruthy (some k2) = true := by simp [strTruthy, hk2]
  refine ⟨hkeq, ?_⟩
  intro hc
  rw [hkeq] at hc
  have hcatch : Firi.balancesCatchKey (some k2) = Firi.balancesCacheKey k2 := by
    simp [Firi.balancesCatchKey, Firi.balancesCacheKey, htake]
  constructor
  · intro hfresh
    simp [Firi.getBalances, jsOrStr, ht, hc, hfresh]
  · intro msg hmsg
    subst hmsg
    by_cases hfresh : isFresh e Firi.BALANCES_CACHE_DURATION now = true
    · simp [Firi.getBalances, jsOrStr, ht, hc, hfresh]
    · simp [Firi.getBalances, jsOrStr, ht, hc, hfresh,
        Firi.getBalancesTry, hcatch]

/-- C9 (witness): keys "SECRETAA-1" and "SECRETAA-2" share their first 8
characters, so the second request is served the first request's cached
balances, fresh and after failure alike. -/
theorem C9_balances_key_collision_witness :
    (Firi.balancesCacheKey "SECRETAA-1" = Firi.balancesCacheKey "SECRETAA-2") ∧
    Firi.getBalances (some "SECRETAA-2") none
        [("balances_SECRETAA", ⟨0, Firi.BalancesResp.ok [⟨"BTC", 1⟩]⟩)] 10
        (Fetch.failure "net") =
      ⟨Firi.BalancesResp.ok [⟨"BTC", 1⟩],
        [("balances_SECRETAA", ⟨0, Firi.BalancesResp.ok [⟨"BTC", 1⟩]⟩)], false⟩ ∧
    (Firi.getBalances (some "SECRETAA-2") none
        [("balances_SECRETAA", ⟨0, Firi.BalancesResp.ok [⟨"BTC", 1⟩]⟩)] 99999
        (Fetch.failure "net")).resp = Firi.BalancesResp.ok [⟨"BTC", 1⟩] := by
  have h1 := C9_balances_key_collision "SECRETAA-1" "SECRETAA-2" none
    [("balances_SECRETAA", ⟨0, Firi.BalancesResp.ok [⟨"BTC", 1⟩]⟩)] 10
    (Fetch.failure "net") ⟨0, Firi.BalancesResp.ok [⟨"BTC", 1⟩]⟩
    (by decide) (by decide) (by decide)
  have h2 := C9_balances_key_collision "SECRETAA-1" "SECRETAA-2" none
    [("balances_SECRETAA", ⟨0, Firi.BalancesResp.ok [⟨"BTC", 1⟩]⟩)] 99999
    (Fetch.failure "net") ⟨0, Firi.BalancesResp.ok [⟨"BTC", 1⟩]⟩
    (by decide) (by decide) (by decide)
  exact ⟨h1.1, (h1.2 (by decide)).1 (by decide), (h2.2 (by decide)).2 "net" rfl⟩

/-- C5 (counterexample): a request to the search endpoint with no `q`
parameter is answered `{ success: true, data: [] }` — a success, not a typed
validation failure — refuting the claim that every handler rejects a missing
subject identifier with a validation failure. -/
theorem C5_search_counterexample :
    Search.searchStocks none [] 0 (Fetch.failure "net") =
      ⟨Search.SearchResp.ok [] false false, [], false⟩ ∧
    ∀ a b, (Search.searchStocks none [] 0 (Fetch.failure "net")).resp ≠
      Search.SearchResp.err a b := by
  refine ⟨rfl, fun a b h => ?_⟩
  rw [show (Search.searchStocks none [] 0 (Fetch.failure "net")).resp =
    Search.SearchResp.ok [] false false from rfl] at h
  exact Search.SearchResp.noConfusion h

/-- C5 (amended): every handler answers a missing subject identifier
synchronously — no upstream call, cache untouched; all reject with a typed
validation failure EXCEPT the search handler, which responds success with an
empty result list. -/
theorem C5_missing_param :
    (∀ (hk : Bool) (cache : Cache Earnings.EarningsResp) (now : Int)
        (fetch : Fetch Earnings.EarningsBody),
        Earnings.getEarningsSurprises none hk cache now fetch =
          ⟨.err "symbol parameter is required", cache, false⟩) ∧
    (∀ (hk : Bool) (cache : Cache Earnings.EstimatesResp) (now : Int)
        (fetch : Fetch Earnings.EstimatesBody),
        Earnings.getEarningsEstimates none hk cache now fetch =
          ⟨.err "symbol parameter is required", cache, false⟩) ∧
    (∀ (limit : Option String) (hk : Bool) (cache : Cache FinnhubNews.NewsResp)
        (now : Int) (fetch : Fetch (Option (List FinnhubNews.NewsItem))),
        FinnhubNews.getNewsSentiment none limit hk cache now fetch =
          ⟨.err "ticker parameter is required", cache, false⟩) ∧
    (∀ (range interval : Option String) (cache : Cache YahooChart.ChartResp)
        (now : Int) (fetch : Fetch (Option YahooChart.ChartObj)),
        YahooChart.getChartData none range interval cache now fetch =
          ⟨.err "symbol parameter is required", cache, false⟩) ∧
    (∀ (cache : Cache YahooEarnings.EarningsData) (now : Int)
        (fetch : Fetch YahooEarnings.SurBody),
        YahooEarnings.getEarningsData none cache now fetch =
          ⟨.err 400 "Symbol is required", cache, false⟩) ∧
    (∀ (hk : Bool) (cache : Cache Profile.ProfileData) (now : Int)
        (fetch : Fetch Profile.ProfileData) (cb : Option String),
        Profile.getProfile none hk cache now fetch cb =
          ⟨{ status := 400, success := none, error := some "Missing symbol",
             profile := none }, cache, false⟩) ∧
    (∀ (hk : Bool) (cache : Cache Financials.FinResp) (now : Int)
        (fetch : Fetch Financials.FinBody),
        Financials.getBasicFinancials none hk cache now fetch =
          ⟨.err "symbol parameter is required", cache, false⟩) ∧
    (∀ (hk : Bool) (cache : Cache Recommendations.RecResp) (now : Int)
        (fetch : Fetch Recommendations.RecBody),
        Recommendations.getRecommendations none hk cache now fetch =
          ⟨.err "symbol parameter is required", cache, false⟩) ∧
    (∀ (limit topics sortParam : Option String) (hk : Bool)
        (cache : Cache AvNews.AvNewsResp) (now : Int) (fetch : Fetch AvNews.AvNewsBody),
        AvNews.getNewsSentiment none limit topics sortParam hk cache now fetch =
          ⟨.err "ticker parameter is required", cache, false⟩) ∧
    (∀ (hk : Bool) (cache : Cache Rat) (now : Int)
        (fetch : String → Fetch (Option PreviousCloses.PCQuote)),
        PreviousCloses.previousCloses none hk cache now fetch =
          ⟨.err 400 "Missing symbols parameter", cache⟩) ∧
    (∀ (cache : Cache (List Search.SearchResult)) (now : Int)
        (fetch : Fetch (Option (List Search.Quote))),
        Search.searchStocks none cache now fetch =
          ⟨Search.SearchResp.ok [] false false, cache, false⟩) := by
  exact ⟨fun _ _ _ _ => rfl, fun _ _ _ _ => rfl, fun _ _ _ _ _ => rfl,
    fun _ _ _ _ _ => rfl, fun _ _ _ => rfl, fun _ _ _ _ _ => rfl,
    fun _ _ _ _ => rfl, fun _ _ _ _ => rfl, fun _ _ _ _ _ _ _ => rfl,
    fun _ _ _ _ => rfl, fun _ _ _ => rfl⟩

/-- C1 (counterexample): the earnings-estimates handler, given an expired
cache entry for "IBM" and a transport failure, returns a typed failure — it
never consults the cache in its catch block — refuting the claim that every
handler falls back to an existing entry on transport failure. -/
theorem C1_estimates_counterexample :
    (cacheGet [("IBM", (⟨0, Earnings.EstimatesResp.ok [] []⟩ :
        CacheEntry Earnings.EstimatesResp))] "IBM").isSome = true ∧
    Earnings.getEarningsEstimates (some "IBM") true
        [("IBM", ⟨0, Earnings.EstimatesResp.ok [] []⟩)]
        Earnings.CACHE_DURATION (Fetch.failure "timeout") =
      ⟨Earnings.EstimatesResp.err "timeout",
        [("IBM", ⟨0, Earnings.EstimatesResp.ok [] []⟩)], true⟩ := by
  exact ⟨rfl, by decide⟩

/-- C1 (amended): on a transport-level fetch failure with an existing cache
entry for the request's key, the earnings-surprises, Finnhub-news, chart,
search, yahoo-earnings, profile, recommendations, balances and FX-pair-rate
handlers return the cached value (fresh or expired alike); the
earnings-estimates, basic-financials and Alpha-Vantage-news handlers instead
return a typed failure without consulting the cache, and the exchange-rates
handler returns the hardcoded fallback rates. -/
theorem C1_stale_fallback :
    (∀ (symbol : Option String) (cache : Cache Earnings.EarningsResp) (now : Int)
        (e : CacheEntry Earnings.EarningsResp) (msg : String),
        strTruthy symbol = true →
        cacheGet cache (symbol.getD "") = some e →
        (Earnings.getEarningsSurprises symbol true cache now (Fetch.failure msg)).resp
          = e.data) ∧
    (∀ (ticker limit : Option String) (cache : Cache FinnhubNews.NewsResp) (now : Int)
        (e : CacheEntry FinnhubNews.NewsResp) (msg : String),
        strTruthy ticker = true →
        cacheGet cache (ticker.getD "" ++ "_" ++ limit.getD "10") = some e →
        (FinnhubNews.getNewsSentiment ticker limit true cache now
          (Fetch.failure msg)).resp = e.data) ∧
    (∀ (symbol range interval : Option String) (cache : Cache YahooChart.ChartResp)
        (now : Int) (e : CacheEntry YahooChart.ChartResp) (msg : String),
        strTruthy symbol = true →
        cacheGet cache (symbol.getD "" ++ "_" ++ range.getD "1d" ++ "_" ++
          interval.getD "5m") = some e →
        (YahooChart.getChartData symbol range interval cache now
          (Fetch.failure msg)).resp = e.data) ∧
    (∀ (q : Option String) (cache : Cache (List Search.SearchResult)) (now : Int)
        (e : CacheEntry (List Search.SearchResult)) (msg : String),
        strTruthy q = true → jsTrim (q.getD "") ≠ "" →
        cacheGet cache (jsTrim (jsToLower (q.getD ""))) = some e →
        ∃ c st, (Search.searchStocks q cache now (Fetch.failure msg)).resp =
          Search.SearchResp.ok e.data c st) ∧
    (∀ (symbol : Option String) (cache : Cache YahooEarnings.EarningsData) (now : Int)
        (e : CacheEntry YahooEarnings.EarningsData) (msg : String),
        strTruthy symbol = true →
        cacheGet cache (jsToUpper (symbol.getD "")) = some e →
        ∃ c st, (YahooEarnings.getEarningsData symbol cache now
          (Fetch.failure msg)).resp = YahooEarnings.YEResp.ok e.data c st) ∧
    (∀ (symbol : Option String) (cache : Cache Profile.ProfileData) (now : Int)
        (e : CacheEntry Profile.ProfileData) (msg : String) (cb : Option String),
        strTruthy symbol = true →
        cacheGet cache (symbol.getD "") = some e →
        (Profile.getProfile symbol true cache now (Fetch.failure msg) cb).resp =
          { status := 200, success := none, error := none, profile := some e.data }) ∧
    (∀ (symbol : Option String) (cache : Cache Recommendations.RecResp) (now : Int)
        (e : CacheEntry Recommendations.RecResp) (msg : String),
        strTruthy symbol = true →
        cacheGet cache (symbol.getD "") = some e →
        (Recommendations.getRecommendations symbol true cache now
          (Fetch.failure msg)).resp = e.data) ∧
    (∀ (k : String) (serverKey : Option String) (cache : Cache Firi.BalancesResp)
        (now : Int) (e : CacheEntry Firi.BalancesResp) (msg : String),
        k.take 8 ≠ "" →
        cacheGet cache (Firi.balancesCacheKey k) = some e →
        (Firi.getBalances (some k) serverKey cache now (Fetch.failure msg)).resp
          = e.data) ∧
    (∀ (cache : Cache Firi.RateResp) (now : Int) (e : CacheEntry Firi.RateResp)
        (msg : String),
        cacheGet cache "rate" = some e →
        (Firi.getUsdtNokRate cache now (Fetch.failure msg)).resp = e.data) ∧
    (∀ (symbol : Option String) (cache : Cache Earnings.EstimatesResp) (now : Int)
        (e : CacheEntry Earnings.EstimatesResp) (msg : String),
        strTruthy symbol = true →
        cacheGet cache (symbol.getD "") = some e →
        isFresh e Earnings.CACHE_DURATION now = false →
        Earnings.getEarningsEstimates symbol true cache now (Fetch.failure msg) =
          ⟨.err msg, cache, true⟩) ∧
    (∀ (symbol : Option String) (cache : Cache Financials.FinResp) (now : Int)
        (e : CacheEntry Financials.FinResp) (msg : String),
        strTruthy symbol = true →
        cacheGet cache (symbol.getD "") = some e →
        isFresh e Financials.CACHE_DURATION now = false →
        Financials.getBasicFinancials symbol true cache now (Fetch.failure msg) =
          ⟨.err msg, cache, true⟩) ∧
    (∀ (ticker limit topics sortParam : Option String) (cache : Cache AvNews.AvNewsResp)
        (now : Int) (e : CacheEntry AvNews.AvNewsResp) (msg : String),
        strTruthy ticker = true →
        cacheGet cache (ticker.getD "" ++ "_" ++ limit.getD "10" ++ "_" ++
          jsOrStrD topics "" ++ "_" ++ sortParam.getD "LATEST") = some e →
        isFresh e AvNews.CACHE_DURATION now = false →
        AvNews.getNewsSentiment ticker limit topics sortParam true cache now
          (Fetch.failure msg) = ⟨.err msg, cache, true⟩) ∧
    (∀ (st : ExchangeRates.RatesState) (now : Int) (r : ExchangeRates.Rates)
        (msg : String),
        st.cachedRates = some r →
        ExchangeRates.CACHE_DURATION ≤ now - st.cacheTime →
        ExchangeRates.getExchangeRates st now (Fetch.failure msg) =
          ⟨{ data := ExchangeRates.fallbackRates, cached := false, fallback := true },
            st, true⟩) := by
  refine ⟨?_, ?_, ?_, ?_, ?_, ?_, ?_, ?_, ?_, ?_, ?_, ?_, ?_⟩
  · intro symbol cache now e msg hs hc
    by_cases hf : isFresh e Earnings.CACHE_DURATION now = true <;>
      simp [Earnings.getEarningsSurprises, hs, hc, hf, Earnings.getEarningsSurprisesTry]
  · intro ticker limit cache now e msg hs hc
    by_cases hf : isFresh e FinnhubNews.CACHE_DURATION now = true <;>
      simp [FinnhubNews.getNewsSentiment, hs, hc, hf, FinnhubNews.getNewsSentimentTry]
  · intro symbol range interval cache now e msg hs hc
    by_cases hf : isFresh e YahooChart.CACHE_DURATION now = true <;>
      simp [YahooChart.getChartData, hs, hc, hf, YahooChart.getChartDataTry,
        YahooChart.staleOr]
  · intro q cache now e msg hs htrim hc
    by_cases hf : isFresh e Search.CACHE_DURATION now = true
    · exact ⟨true, false, by simp [Search.searchStocks, hs, htrim, hc, hf]⟩
    · exact ⟨false, true, by
        simp [Search.searchStocks, hs, htrim, hc, hf, Search.searchStocksTry]⟩
  · intro symbol cache now e msg hs hc
    by_cases hf : isFresh e YahooEarnings.CACHE_DURATION now = true
    · exact ⟨true, false, by simp [YahooEarnings.getEarningsData, hs, hc, hf]⟩
    · exact ⟨false, true, by
        simp [YahooEarnings.getEarningsData, hs, hc, hf, YahooEarnings.getEarningsDataTry]⟩
  · intro symbol cache now e msg cb hs hc
    by_cases hf : isFresh e Profile.CACHE_DURATION now = true <;>
      simp [Profile.getProfile, hs, hc, hf, Profile.getProfileTry]
  · intro symbol cache now e msg hs hc
    by_cases hf : isFresh e Recommendations.CACHE_DURATION now = true <;>
      simp [Recommendations.getRecommendations, hs, hc, hf,
        Recommendations.getRecommendationsTry]
  · intro k serverKey cache now e msg htake hc
    have hk : k ≠ "" := by
      intro h
      apply htake
      rw [h]
      rfl
    have ht : strTruthy (some k) = true := by simp [strTruthy, hk]
    have hcatch : Firi.balancesCatchKey (some k) = Firi.balancesCacheKey k := by
      simp [Firi.balancesCatchKey, Firi.balancesCacheKey, htake]
    by_cases hf : isFresh e Firi.BALANCES_CACHE_DURATION now = true
    · simp [Firi.getBalances, jsOrStr, ht, hc, hf]
    · simp [Firi.getBalances, jsOrStr, ht, hc, hf, Firi.getBalancesTry, hcatch]
  · intro cache now e msg hc
    by_cases hf : isFresh e Firi.NOK_RATE_CACHE_DURATION now = true <;>
      simp [Firi.getUsdtNokRate, hc, hf, Firi.getUsdtNokRateTry]
  · intro symbol cache now e msg hs hc hf
    simp [Earnings.getEarningsEstimates, hs, hc, hf, Earnings.getEarningsEstimatesTry]
  · intro symbol cache now e msg hs hc hf
    simp [Financials.getBasicFinancials, hs, hc, hf, Financials.getBasicFinancialsTry]
  · intro ticker limit topics sortParam cache now e msg hs hc hf
    simp [AvNews.getNewsSentiment, hs, hc, hf, AvNews.getNewsSentimentTry]
  · intro st now r msg hr hf
    have hnl : ¬ (now - st.cacheTime < ExchangeRates.CACHE_DURATION) := not_lt.mpr hf
    simp [ExchangeRates.getExchangeRates, hr, hnl, ExchangeRates.exchangeRatesTry]

/-- C1 (witness): concrete instances of every conjunct of the amended
stale-fallback statement. -/
theorem C1_stale_fallback_witness :
    (Earnings.getEarningsSurprises (some "A") true
        [("A", ⟨0, Earnings.EarningsResp.ok []⟩)] 0 (Fetch.failure "m")).resp =
      Earnings.EarningsResp.ok [] ∧
    (FinnhubNews.getNewsSentiment (some "A") none true
        [("A_10", ⟨0, FinnhubNews.NewsResp.ok []⟩)] 0 (Fetch.failure "m")).resp =
      FinnhubNews.NewsResp.ok [] ∧
    (YahooChart.getChartData (some "A") none none
        [("A_1d_5m", ⟨0, YahooChart.ChartResp.err "old"⟩)] 0 (Fetch.failure "m")).resp =
      YahooChart.ChartResp.err "old" ∧
    (∃ c st, (Search.searchStocks (some "a") [("a", ⟨0, []⟩)] 0
        (Fetch.failure "m")).resp = Search.SearchResp.ok [] c st) ∧
    (∃ c st, (YahooEarnings.getEarningsData (some "a")
        [("A", ⟨0, ⟨[], [], none⟩⟩)] 0 (Fetch.failure "m")).resp =
      YahooEarnings.YEResp.ok ⟨[], [], none⟩ c st) ∧
    (Profile.getProfile (some "A") true [("A", ⟨0, ⟨none, none, none⟩⟩)] 0
        (Fetch.failure "m") none).resp =
      { status := 200, success := none, error := none,
        profile := some ⟨none, none, none⟩ } ∧
    (Recommendations.getRecommendations (some "A") true
        [("A", ⟨0, Recommendations.RecResp.ok []⟩)] 0 (Fetch.failure "m")).resp =
      Recommendations.RecResp.ok [] ∧
    (Firi.getBalances (some "SECRETAA-1") none
        [("balances_SECRETAA", ⟨0, Firi.BalancesResp.ok []⟩)] 99999
        (Fetch.failure "m")).resp = Firi.BalancesResp.ok [] ∧
    (Firi.getUsdtNokRate [("rate", ⟨0, ⟨some 10⟩⟩)] 99999
        (Fetch.failure "m")).resp = Firi.RateResp.mk (some 10) ∧
    Earnings.getEarningsEstimates (some "A") true
        [("A", ⟨0, Earnings.EstimatesResp.ok [] []⟩)] Earnings.CACHE_DURATION
        (Fetch.failure "m") =
      ⟨.err "m", [("A", ⟨0, Earnings.EstimatesResp.ok [] []⟩)], true⟩ ∧
    Financials.getBasicFinancials (some "A") true
        [("A", ⟨0, Financials.FinResp.err "old"⟩)] Financials.CACHE_DURATION
        (Fetch.failure "m") =
      ⟨.err "m", [("A", ⟨0, Financials.FinResp.err "old"⟩)], true⟩ ∧
    AvNews.getNewsSentiment (some "A") none none none true
        [("A_10__LATEST", ⟨0, AvNews.AvNewsResp.ok ⟨"0", []⟩⟩)] AvNews.CACHE_DURATION
        (Fetch.failure "m") =
      ⟨.err "m", [("A_10__LATEST", ⟨0, AvNews.AvNewsResp.ok ⟨"0", []⟩⟩)], true⟩ ∧
    ExchangeRates.getExchangeRates ⟨some ⟨10, 1, 1⟩, 0⟩ 300000 (Fetch.failure "m") =
      ⟨{ data := ExchangeRates.fallbackRates, cached := false, fallback := true },
        ⟨some ⟨10, 1, 1⟩, 0⟩, true⟩ := by
  refine ⟨?_, ?_, ?_, ?_, ?_, ?_, ?_, ?_, ?_, ?_, ?_, ?_, ?_⟩
  · exact C1_stale_fallback.1 (some "A") [("A", ⟨0, Earnings.EarningsResp.ok []⟩)] 0
      ⟨0, Earnings.EarningsResp.ok []⟩ "m" (by decide) (by decide)
  · exact C1_stale_fallback.2.1 (some "A") none
      [("A_10", ⟨0, FinnhubNews.NewsResp.ok []⟩)] 0
      ⟨0, FinnhubNews.NewsResp.ok []⟩ "m" (by decide) (by decide)
  · exact C1_stale_fallback.2.2.1 (some "A") none none
      [("A_1d_5m", ⟨0, YahooChart.ChartResp.err "old"⟩)] 0
      ⟨0, YahooChart.ChartResp.err "old"⟩ "m" (by decide) (by decide)
  · exact C1_stale_fallback.2.2.2.1 (some "a") [("a", ⟨0, []⟩)] 0
      ⟨0, []⟩ "m" (by decide) (by decide) (by decide)
  · exact C1_stale_fallback.2.2.2.2.1 (some "a") [("A", ⟨0, ⟨[], [], none⟩⟩)] 0
      ⟨0, ⟨[], [], none⟩⟩ "m" (by decide) (by decide)
  · exact C1_stale_fallback.2.2.2.2.2.1 (some "A") [("A", ⟨0, ⟨none, none, none⟩⟩)] 0
      ⟨0, ⟨none, none, none⟩⟩ "m" none (by decide) (by decide)
  · exact C1_stale_fallback.2.2.2.2.2.2.1 (some "A")
      [("A", ⟨0, Recommendations.RecResp.ok []⟩)] 0
      ⟨0, Recommendations.RecResp.ok []⟩ "m" (by decide) (by decide)
  · exact C1_stale_fallback.2.2.2.2.2.2.2.1 "SECRETAA-1" none
      [("balances_SECRETAA", ⟨0, Firi.BalancesResp.ok []⟩)] 99999
      ⟨0, Firi.BalancesResp.ok []⟩ "m" (by decide) (by decide)
  · exact C1_stale_fallback.2.2.2.2.2.2.2.2.1 [("rate", ⟨0, ⟨some 10⟩⟩)] 99999
      ⟨0, ⟨some 10⟩⟩ "m" (by decide)
  · exact C1_stale_fallback.2.2.2.2.2.2.2.2.2.1 (some "A")
      [("A", ⟨0, Earnings.EstimatesResp.ok [] []⟩)] Earnings.CACHE_DURATION
      ⟨0, Earnings.EstimatesResp.ok [] []⟩ "m" (by decide) (by decide) (by decide)
  · exact C1_stale_fallback.2.2.2.2.2.2.2.2.2.2.1 (some "A")
      [("A", ⟨0, Financials.FinResp.err "old"⟩)] Financials.CACHE_DURATION
      ⟨0, Financials.FinResp.err "old"⟩ "m" (by decide) (by decide) (by decide)
  · exact C1_stale_fallback.2.2.2.2.2.2.2.2.2.2.2.1 (some "A") none none none
      [("A_10__LATEST", ⟨0, AvNews.AvNewsResp.ok ⟨"0", []⟩⟩)] AvNews.CACHE_DURATION
      ⟨0, AvNews.AvNewsResp.ok ⟨"0", []⟩⟩ "m" (by decide) (by decide) (by decide)
  · exact C1_stale_fallback.2.2.2.2.2.2.2.2.2.2.2.2 ⟨some ⟨10, 1, 1⟩, 0⟩ 300000
      ⟨10, 1, 1⟩ "m" rfl (by decide)

/-- C2 (counterexample): a structurally valid but empty earnings body (no
error fields, `quarterlyEarnings: []`) with no prior cache entry yields a
TYPED FAILURE, and nothing is stored — refuting "empty is cached and returned
as success" for the earnings-surprises handler. -/
theorem C2_empty_counterexample :
    Earnings.getEarningsSurprises (some "NOPE") true [] 0
        (Fetch.success ⟨none, none, none, some []⟩) =
      ⟨Earnings.EarningsResp.err "No earnings data available", [], true⟩ := by
  decide

/-- C2 (amended): the search handler caches an empty result set and returns
it as success, and a fresh lookup within the TTL serves that cached empty
without an upstream call.  The Finnhub news and earnings-surprises handlers
instead use an empty result as grounds for stale fallback: with any existing
entry they return it and store nothing; with none, the news handler answers
success-with-empty-feed WITHOUT caching it and the earnings handler answers a
typed failure.  The Alpha Vantage news handler caches an empty feed as
success. -/
theorem C2_empty_results :
    (∀ (q : Option String) (cache : Cache (List Search.SearchResult)) (now : Int),
        strTruthy q = true → jsTrim (q.getD "") ≠ "" →
        cacheGet cache (jsTrim (jsToLower (q.getD ""))) = none →
        Search.searchStocks q cache now (Fetch.success (some [])) =
          ⟨Search.SearchResp.ok [] false false,
            cacheSet cache (jsTrim (jsToLower (q.getD ""))) ⟨now, []⟩, true⟩) ∧
    (∀ (q : Option String) (cache : Cache (List Search.SearchResult)) (now now2 : Int)
        (fetch2 : Fetch (Option (List Search.Quote))),
        strTruthy q = true → jsTrim (q.getD "") ≠ "" →
        now2 - now < Search.CACHE_DURATION →
        Search.searchStocks q
            (cacheSet cache (jsTrim (jsToLower (q.getD ""))) ⟨now, []⟩) now2 fetch2 =
          ⟨Search.SearchResp.ok [] true false,
            cacheSet cache (jsTrim (jsToLower (q.getD ""))) ⟨now, []⟩, false⟩) ∧
    (∀ (ticker limit : Option String) (cache : Cache FinnhubNews.NewsResp) (now : Int)
        (e : CacheEntry FinnhubNews.NewsResp)
        (body : Option (List FinnhubNews.NewsItem)),
        strTruthy ticker = true →
        (body = none ∨ body = some []) →
        cacheGet cache (ticker.getD "" ++ "_" ++ limit.getD "10") = some e →
        ((FinnhubNews.getNewsSentiment ticker limit true cache now
            (Fetch.success body)).resp = e.data ∧
         (FinnhubNews.getNewsSentiment ticker limit true cache now
            (Fetch.success body)).cache = cache)) ∧
    (∀ (ticker limit : Option String) (cache : Cache FinnhubNews.NewsResp) (now : Int),
        strTruthy ticker = true →
        cacheGet cache (ticker.getD "" ++ "_" ++ limit.getD "10") = none →
        FinnhubNews.getNewsSentiment ticker limit true cache now
            (Fetch.success (some [])) =
          ⟨FinnhubNews.NewsResp.ok [], cache, true⟩) ∧
    (∀ (symbol : Option String) (cache : Cache Earnings.EarningsResp) (now : Int)
        (e : CacheEntry Earnings.EarningsResp),
        strTruthy symbol = true →
        cacheGet cache (symbol.getD "") = some e →
        ((Earnings.getEarningsSurprises symbol true cache now
            (Fetch.success ⟨none, none, none, some []⟩)).resp = e.data ∧
         (Earnings.getEarningsSurprises symbol true cache now
            (Fetch.success ⟨none, none, none, some []⟩)).cache = cache)) ∧
    (∀ (symbol : Option String) (cache : Cache Earnings.EarningsResp) (now : Int),
        strTruthy symbol = true →
        cacheGet cache (symbol.getD "") = none →
        Earnings.getEarningsSurprises symbol true cache now
            (Fetch.success ⟨none, none, none, some []⟩) =
          ⟨.err "No earnings data available", cache, true⟩) ∧
    (∀ (ticker limit topics sortParam : Option String)
        (cache : Cache AvNews.AvNewsResp) (now : Int),
        strTruthy ticker = true →
        cacheGet cache (ticker.getD "" ++ "_" ++ limit.getD "10" ++ "_" ++
          jsOrStrD topics "" ++ "_" ++ sortParam.getD "LATEST") = none →
        AvNews.getNewsSentiment ticker limit topics sortParam true cache now
            (Fetch.success ⟨none, none, none, some "3", some []⟩) =
          ⟨AvNews.AvNewsResp.ok ⟨"3", []⟩,
            cacheSet cache (ticker.getD "" ++ "_" ++ limit.getD "10" ++ "_" ++
              jsOrStrD topics "" ++ "_" ++ sortParam.getD "LATEST")
              ⟨now, AvNews.AvNewsResp.ok ⟨"3", []⟩⟩, true⟩) := by
  refine ⟨?_, ?_, ?_, ?_, ?_, ?_, ?_⟩
  · intro q cache now hq htrim hc
    simp [Search.searchStocks, hq, htrim, hc, Search.searchStocksTry, sortDescBy]
  · intro q cache now now2 fetch2 hq htrim hlt
    have hfr : isFresh (⟨now, []⟩ : CacheEntry (List Search.SearchResult))
        Search.CACHE_DURATION now2 = true := by
      simp [isFresh, hlt]
    simp [Search.searchStocks, hq, htrim, cacheGet_set_self, hfr]
  · intro ticker limit cache now e body hq hbody hc
    rcases hbody with rfl | rfl <;>
      (by_cases hf : isFresh e FinnhubNews.CACHE_DURATION now = true <;>
        simp [FinnhubNews.getNewsSentiment, hq, hc, hf, FinnhubNews.getNewsSentimentTry])
  · intro ticker limit cache now hq hc
    simp [FinnhubNews.getNewsSentiment, hq, hc, FinnhubNews.getNewsSentimentTry]
  · intro symbol cache now e hq hc
    have hsoft : avSoftError none none none = false := rfl
    by_cases hf : isFresh e Earnings.CACHE_DURATION now = true <;>
      simp [Earnings.getEarningsSurprises, hq, hc, hf,
        Earnings.getEarningsSurprisesTry, hsoft]
  · intro symbol cache now hq hc
    have hsoft : avSoftError none none none = false := rfl
    simp [Earnings.getEarningsSurprises, hq, hc,
      Earnings.getEarningsSurprisesTry, hsoft]
  · intro ticker limit topics sortParam cache now hq hc
    have hsoft : avSoftError none none none = false := rfl
    have hitems : jsOrStrD (some "3") "0" = "3" := rfl
    simp [AvNews.getNewsSentiment, hq, hc, AvNews.getNewsSentimentTry, hsoft,
      hitems, sortDescBy]

/-- C2 (witness): concrete instances of every conjunct of the amended
empty-result statement. -/
theorem C2_empty_results_witness :
    Search.searchStocks (some "zz") [] 5 (Fetch.success (some [])) =
      ⟨Search.SearchResp.ok [] false false, [("zz", ⟨5, []⟩)], true⟩ ∧
    Search.searchStocks (some "zz") [("zz", ⟨5, []⟩)] 10 (Fetch.failure "net") =
      ⟨Search.SearchResp.ok [] true false, [("zz", ⟨5, []⟩)], false⟩ ∧
    ((FinnhubNews.getNewsSentiment (some "A") none true
        [("A_10", ⟨0, FinnhubNews.NewsResp.ok []⟩)] 0
        (Fetch.success (some []))).resp = FinnhubNews.NewsResp.ok [] ∧
     (FinnhubNews.getNewsSentiment (some "A") none true
        [("A_10", ⟨0, FinnhubNews.NewsResp.ok []⟩)] 0
        (Fetch.success (some []))).cache = [("A_10", ⟨0, FinnhubNews.NewsResp.ok []⟩)]) ∧
    FinnhubNews.getNewsSentiment (some "A") none true [] 0
        (Fetch.success (some [])) = ⟨FinnhubNews.NewsResp.ok [], [], true⟩ ∧
    ((Earnings.getEarningsSurprises (some "A") true
        [("A", ⟨0, Earnings.EarningsResp.ok []⟩)] 0
        (Fetch.success ⟨none, none, none, some []⟩)).resp =
      Earnings.EarningsResp.ok [] ∧
     (Earnings.getEarningsSurprises (some "A") true
        [("A", ⟨0, Earnings.EarningsResp.ok []⟩)] 0
        (Fetch.success ⟨none, none, none, some []⟩)).cache =
      [("A", ⟨0, Earnings.EarningsResp.ok []⟩)]) ∧
    Earnings.getEarningsSurprises (some "B") true
        [("A", ⟨0, Earnings.EarningsResp.ok []⟩)] 0
        (Fetch.success ⟨none, none, none, some []⟩) =
      ⟨.err "No earnings data available", [("A", ⟨0, Earnings.EarningsResp.ok []⟩)],
        true⟩ ∧
    AvNews.getNewsSentiment (some "A") none none none true [] 0
        (Fetch.success ⟨none, none, none, some "3", some []⟩) =
      ⟨AvNews.AvNewsResp.ok ⟨"3", []⟩,
        [("A_10__LATEST", ⟨0, AvNews.AvNewsResp.ok ⟨"3", []⟩⟩)], true⟩ := by
  refine ⟨?_, ?_, ?_, ?_, ?_, ?_, ?_⟩
  · exact C2_empty_results.1 (some "zz") [] 5 (by decide) (by decide) (by decide)
  · exact C2_empty_results.2.1 (some "zz") [] 5 10 (Fetch.failure "net")
      (by decide) (by decide) (by decide)
  · exact C2_empty_results.2.2.1 (some "A") none
      [("A_10", ⟨0, FinnhubNews.NewsResp.ok []⟩)] 0
      ⟨0, FinnhubNews.NewsResp.ok []⟩ (some []) (by decide) (Or.inr rfl) (by decide)
  · exact C2_empty_results.2.2.2.1 (some "A") none [] 0 (by decide) (by decide)
  · exact C2_empty_results.2.2.2.2.1 (some "A")
      [("A", ⟨0, Earnings.EarningsResp.ok []⟩)] 0
      ⟨0, Earnings.EarningsResp.ok []⟩ (by decide) (by decide)
  · exact C2_empty_results.2.2.2.2.2.1 (some "B")
      [("A", ⟨0, Earnings.EarningsResp.ok []⟩)] 0 (by decide) (by decide)
  · exact C2_empty_results.2.2.2.2.2.2 (some "A") none none none [] 0
      (by decide) (by decide)

/-- C3 (counterexample): the basic-financials handler, on a 200 body with an
embedded `error` field and an EXPIRED cache entry present for the same
symbol, returns the typed failure directly instead of falling back to the
entry — refuting "the handler falls back to the existing cache entry if one
exists" for every handler.  (The body is still not cached.) -/
theorem C3_financials_counterexample :
    (cacheGet [("A", (⟨0, Financials.FinResp.ok ⟨none, none, none, none⟩⟩ :
        CacheEntry Financials.FinResp))] "A").isSome = true ∧
    Financials.getBasicFinancials (some "A") true
        [("A", ⟨0, Financials.FinResp.ok ⟨none, none, none, none⟩⟩)]
        Financials.CACHE_DURATION
        (Fetch.success ⟨some "API limit reached", none, none, none, none⟩) =
      ⟨.err "API limit reached",
        [("A", ⟨0, Financials.FinResp.ok ⟨none, none, none, none⟩⟩)], true⟩ := by
  exact ⟨rfl, by decide⟩

/-- C3 (amended): a 200 body carrying an embedded error indicator is treated
as a failure and is never written into the cache; the AV news,
earnings-surprises, earnings-estimates, chart and recommendations handlers
fall back to any existing cache entry (else a typed failure), while the
basic-financials handler returns the typed failure directly even when an
entry exists. -/
theorem C3_soft_errors :
    (∀ (ticker limit topics sortParam : Option String)
        (cache : Cache AvNews.AvNewsResp) (now : Int) (e : CacheEntry AvNews.AvNewsResp)
        (body : AvNews.AvNewsBody),
        strTruthy ticker = true →
        avSoftError body.note body.errorMessage body.information = true →
        cacheGet cache (ticker.getD "" ++ "_" ++ limit.getD "10" ++ "_" ++
          jsOrStrD topics "" ++ "_" ++ sortParam.getD "LATEST") = some e →
        ((AvNews.getNewsSentiment ticker limit topics sortParam true cache now
            (Fetch.success body)).resp = e.data ∧
         (AvNews.getNewsSentiment ticker limit topics sortParam true cache now
            (Fetch.success body)).cache = cache)) ∧
    (∀ (ticker limit topics sortParam : Option String)
        (cache : Cache AvNews.AvNewsResp) (now : Int) (body : AvNews.AvNewsBody),
        strTruthy ticker = true →
        avSoftError body.note body.errorMessage body.information = true →
        cacheGet cache (ticker.getD "" ++ "_" ++ limit.getD "10" ++ "_" ++
          jsOrStrD topics "" ++ "_" ++ sortParam.getD "LATEST") = none →
        AvNews.getNewsSentiment ticker limit topics sortParam true cache now
            (Fetch.success body) =
          ⟨.err (avErrorMsg body.note body.errorMessage body.information ""),
            cache, true⟩) ∧
    (∀ (symbol : Option String) (cache : Cache Earnings.EarningsResp) (now : Int)
        (e : CacheEntry Earnings.EarningsResp) (body : Earnings.EarningsBody),
        strTruthy symbol = true →
        avSoftError body.note body.information body.errorMessage = true →
        cacheGet cache (symbol.getD "") = some e →
        ((Earnings.getEarningsSurprises symbol true cache now
            (Fetch.success body)).resp = e.data ∧
         (Earnings.getEarningsSurprises symbol true cache now
            (Fetch.success body)).cache = cache)) ∧
    (∀ (symbol : Option String) (cache : Cache Earnings.EstimatesResp) (now : Int)
        (e : CacheEntry Earnings.EstimatesResp) (body : Earnings.EstimatesBody),
        strTruthy symbol = true →
        avSoftError body.note body.information body.errorMessage = true →
        cacheGet cache (symbol.getD "") = some e →
        ((Earnings.getEarningsEstimates symbol true cache now
            (Fetch.success body)).resp = e.data ∧
         (Earnings.getEarningsEstimates symbol true cache now
            (Fetch.success body)).cache = cache)) ∧
    (∀ (symbol range interval : Option String) (cache : Cache YahooChart.ChartResp)
        (now : Int) (e : CacheEntry YahooChart.ChartResp) (descr : Option String)
        (res : Option YahooChart.ChartResult),
        strTruthy symbol = true →
        cacheGet cache (symbol.getD "" ++ "_" ++ range.getD "1d" ++ "_" ++
          interval.getD "5m") = some e →
        ((YahooChart.getChartData symbol range interval cache now
            (Fetch.success (some ⟨some descr, res⟩))).resp = e.data ∧
         (YahooChart.getChartData symbol range interval cache now
            (Fetch.success (some ⟨some descr, res⟩))).cache = cache)) ∧
    (∀ (symbol : Option String) (cache : Cache Recommendations.RecResp) (now : Int)
        (e : CacheEntry Recommendations.RecResp) (msg : String),
        strTruthy symbol = true →
        cacheGet cache (symbol.getD "") = some e →
        ((Recommendations.getRecommendations symbol true cache now
            (Fetch.success (.errObj msg))).resp = e.data ∧
         (Recommendations.getRecommendations symbol true cache now
            (Fetch.success (.errObj msg))).cache = cache)) ∧
    (∀ (symbol : Option String) (cache : Cache Financials.FinResp) (now : Int)
        (e : CacheEntry Financials.FinResp) (body : Financials.FinBody),
        strTruthy symbol = true →
        strTruthy body.errorField = true →
        cacheGet cache (symbol.getD "") = some e →
        isFresh e Financials.CACHE_DURATION now = false →
        Financials.getBasicFinancials symbol true cache now (Fetch.success body) =
          ⟨.err (body.errorField.getD ""), cache, true⟩) := by
  refine ⟨?_, ?_, ?_, ?_, ?_, ?_, ?_⟩
  · intro ticker limit topics sortParam cache now e body hq hsoft hc
    by_cases hf : isFresh e AvNews.CACHE_DURATION now = true <;>
      simp [AvNews.getNewsSentiment, hq, hc, hf, AvNews.getNewsSentimentTry, hsoft]
  · intro ticker limit topics sortParam cache now body hq hsoft hc
    simp [AvNews.getNewsSentiment, hq, hc, AvNews.getNewsSentimentTry, hsoft]
  · intro symbol cache now e body hq hsoft hc
    by_cases hf : isFresh e Earnings.CACHE_DURATION now = true <;>
      simp [Earnings.getEarningsSurprises, hq, hc, hf,
        Earnings.getEarningsSurprisesTry, hsoft]
  · intro symbol cache now e body hq hsoft hc
    by_cases hf : isFresh e Earnings.CACHE_DURATION now = true <;>
      simp [Earnings.getEarningsEstimates, hq, hc, hf,
        Earnings.getEarningsEstimatesTry, hsoft]
  · intro symbol range interval cache now e descr res hq hc
    by_cases hf : isFresh e YahooChart.CACHE_DURATION now = true <;>
      simp [YahooChart.getChartData, hq, hc, hf, YahooChart.getChartDataTry,
        YahooChart.staleOr]
  · intro symbol cache now e msg hq hc
    by_cases hf : isFresh e Recommendations.CACHE_DURATION now = true <;>
      simp [Recommendations.getRecommendations, hq, hc, hf,
        Recommendations.getRecommendationsTry]
  · intro symbol cache now e body hq herr hc hf
    simp [Financials.getBasicFinancials, hq, hc, hf,
      Financials.getBasicFinancialsTry, herr]

/-- C3 (witness): concrete instances of every conjunct of the amended
soft-error statement (body `{ Note: "rate limit" }`). -/
theorem C3_soft_errors_witness :
    ((AvNews.getNewsSentiment (some "A") none none none true
        [("A_10__LATEST", ⟨0, AvNews.AvNewsResp.ok ⟨"0", []⟩⟩)] 0
        (Fetch.success ⟨some "rate limit", none, none, none, none⟩)).resp =
      AvNews.AvNewsResp.ok ⟨"0", []⟩) ∧
    AvNews.getNewsSentiment (some "A") none none none true [] 0
        (Fetch.success ⟨some "rate limit", none, none, none, none⟩) =
      ⟨.err "rate limit", [], true⟩ ∧
    ((Earnings.getEarningsSurprises (some "A") true
        [("A", ⟨0, Earnings.EarningsResp.ok []⟩)] 0
        (Fetch.success ⟨some "rate limit", none, none, none⟩)).resp =
      Earnings.EarningsResp.ok []) ∧
    ((Earnings.getEarningsEstimates (some "A") true
        [("A", ⟨0, Earnings.EstimatesResp.ok [] []⟩)] 0
        (Fetch.success ⟨some "rate limit", none, none, none, none, none, none⟩)).resp =
      Earnings.EstimatesResp.ok [] []) ∧
    ((YahooChart.getChartData (some "A") none none
        [("A_1d_5m", ⟨0, YahooChart.ChartResp.err "old"⟩)] 0
        (Fetch.success (some ⟨some (some "Not Found"), none⟩))).resp =
      YahooChart.ChartResp.err "old") ∧
    ((Recommendations.getRecommendations (some "A") true
        [("A", ⟨0, Recommendations.RecResp.ok []⟩)] 0
        (Fetch.success (.errObj "bad symbol"))).resp =
      Recommendations.RecResp.ok []) ∧
    Financials.getBasicFinancials (some "A") true
        [("A", ⟨0, Financials.FinResp.err "old"⟩)] Financials.CACHE_DURATION
        (Fetch.success ⟨some "rate limit", none, none, none, none⟩) =
      ⟨.err "rate limit", [("A", ⟨0, Financials.FinResp.err "old"⟩)], true⟩ := by
  refine ⟨?_, ?_, ?_, ?_, ?_, ?_, ?_⟩
  · exact (C3_soft_errors.1 (some "A") none none none
      [("A_10__LATEST", ⟨0, AvNews.AvNewsResp.ok ⟨"0", []⟩⟩)] 0
      ⟨0, AvNews.AvNewsResp.ok ⟨"0", []⟩⟩
      ⟨some "rate limit", none, none, none, none⟩
      (by decide) (by decide) (by decide)).1
  · exact C3_soft_errors.2.1 (some "A") none none none [] 0
      ⟨some "rate limit", none, none, none, none⟩ (by decide) (by decide) (by decide)
  · exact (C3_soft_errors.2.2.1 (some "A") [("A", ⟨0, Earnings.EarningsResp.ok []⟩)] 0
      ⟨0, Earnings.EarningsResp.ok []⟩ ⟨some "rate limit", none, none, none⟩
      (by decide) (by decide) (by decide)).1
  · exact (C3_soft_errors.2.2.2.1 (some "A")
      [("A", ⟨0, Earnings.EstimatesResp.ok [] []⟩)] 0
      ⟨0, Earnings.EstimatesResp.ok [] []⟩
      ⟨some "rate limit", none, none, none, none, none, none⟩
      (by decide) (by decide) (by decide)).1
  · exact (C3_soft_errors.2.2.2.2.1 (some "A") none none
      [("A_1d_5m", ⟨0, YahooChart.ChartResp.err "old"⟩)] 0
      ⟨0, YahooChart.ChartResp.err "old"⟩ (some "Not Found") none
      (by decide) (by decide)).1
  · exact (C3_soft_errors.2.2.2.2.2.1 (some "A")
      [("A", ⟨0, Recommendations.RecResp.ok []⟩)] 0
      ⟨0, Recommendations.RecResp.ok []⟩ "bad symbol" (by decide) (by decide)).1
  · exact C3_soft_errors.2.2.2.2.2.2 (some "A")
      [("A", ⟨0, Financials.FinResp.err "old"⟩)] Financials.CACHE_DURATION
      ⟨0, Financials.FinResp.err "old"⟩ ⟨some "rate limit", none, none, none, none⟩
      (by decide) (by decide) (by decide) (by decide)

theorem foldl_processSymbol_allFail (msgf : String → String) (now : Int) :
    ∀ syms : List String,
      syms.foldl (PreviousCloses.processSymbol (fun s => Fetch.failure (msgf s)) now)
        ([], []) = ([], []) := by
  intro syms
  induction syms with
  | nil => rfl
  | cons x rest ih =>
    simpa [List.foldl_cons, PreviousCloses.processSymbol,
      PreviousCloses.processSymbolFetch] using ih

/-- C6 (counterexample): the profile handler, on a transport failure with no
cache entry, answers `{ error: 'Failed to fetch company profile' }` with
status 500 — a typed failure WITHOUT any `success` discriminator — refuting
the claim that the failure object carries a success discriminator plus
message. -/
theorem C6_profile_counterexample :
    Profile.getProfile (some "AAPL") true [] 0 (Fetch.failure "socket hang up") none =
      ⟨{ status := 500, success := none,
         error := some "Failed to fetch company profile", profile := none }, [], true⟩ ∧
    (Profile.getProfile (some "AAPL") true [] 0
        (Fetch.failure "socket hang up") none).resp.success = none := by
  exact ⟨rfl, rfl⟩

/-- C6 (amended): on transport failure with no cache entry, every handler
answers a deterministic typed object and never rethrows: the earnings, news,
chart, search, financials, recommendations, yahoo-earnings and balances
handlers return `success: false` plus a message; the profile handler returns
only an error message (no success field); the previous-closes handler even
reports SUCCESS with the failing symbols silently omitted; and the FX
handlers return the documented numeric defaults as success — rate 10.5 and
rates {USD: 10.5, SEK: 1, NOK: 1}. -/
theorem C6_failure_no_cache :
    (∀ (symbol : Option String) (cache : Cache Earnings.EarningsResp) (now : Int)
        (msg : String),
        strTruthy symbol = true → cacheGet cache (symbol.getD "") = none →
        Earnings.getEarningsSurprises symbol true cache now (Fetch.failure msg) =
          ⟨.err msg, cache, true⟩) ∧
    (∀ (symbol : Option String) (cache : Cache Earnings.EstimatesResp) (now : Int)
        (msg : String),
        strTruthy symbol = true → cacheGet cache (symbol.getD "") = none →
        Earnings.getEarningsEstimates symbol true cache now (Fetch.failure msg) =
          ⟨.err msg, cache, true⟩) ∧
    (∀ (ticker limit : Option String) (cache : Cache FinnhubNews.NewsResp) (now : Int)
        (msg : String),
        strTruthy ticker = true →
        cacheGet cache (ticker.getD "" ++ "_" ++ limit.getD "10") = none →
        FinnhubNews.getNewsSentiment ticker limit true cache now (Fetch.failure msg) =
          ⟨.err msg, cache, true⟩) ∧
    (∀ (symbol range interval : Option String) (cache : Cache YahooChart.ChartResp)
        (now : Int) (msg : String),
        strTruthy symbol = true →
        cacheGet cache (symbol.getD "" ++ "_" ++ range.getD "1d" ++ "_" ++
          interval.getD "5m") = none →
        YahooChart.getChartData symbol range interval cache now (Fetch.failure msg) =
          ⟨.err (jsOrStrD (some msg) "Failed to fetch chart data"), cache, true⟩) ∧
    (∀ (q : Option String) (cache : Cache (List Search.SearchResult)) (now : Int)
        (msg : String),
        strTruthy q = true → jsTrim (q.getD "") ≠ "" →
        cacheGet cache (jsTrim (jsToLower (q.getD ""))) = none →
        Search.searchStocks q cache now (Fetch.failure msg) =
          ⟨Search.SearchResp.err "Failed to search stocks" msg, cache, true⟩) ∧
    (∀ (symbol : Option String) (cache : Cache Financials.FinResp) (now : Int)
        (msg : String),
        strTruthy symbol = true → cacheGet cache (symbol.getD "") = none →
        Financials.getBasicFinancials symbol true cache now (Fetch.failure msg) =
          ⟨.err msg, cache, true⟩) ∧
    (∀ (symbol : Option String) (cache : Cache Recommendations.RecResp) (now : Int)
        (msg : String),
        strTruthy symbol = true → cacheGet cache (symbol.getD "") = none →
        Recommendations.getRecommendations symbol true cache now (Fetch.failure msg) =
          ⟨.err msg, cache, true⟩) ∧
    (∀ (symbol : Option String) (cache : Cache YahooEarnings.EarningsData) (now : Int)
        (msg : String),
        strTruthy symbol = true →
        cacheGet cache (jsToUpper (symbol.getD "")) = none →
        YahooEarnings.getEarningsData symbol cache now (Fetch.failure msg) =
          ⟨.err 500 "Failed to fetch earnings data", cache, true⟩) ∧
    (∀ (ticker limit topics sortParam : Option String)
        (cache : Cache AvNews.AvNewsResp) (now : Int) (msg : String),
        strTruthy ticker = true →
        cacheGet cache (ticker.getD "" ++ "_" ++ limit.getD "10" ++ "_" ++
          jsOrStrD topics "" ++ "_" ++ sortParam.getD "LATEST") = none →
        AvNews.getNewsSentiment ticker limit topics sortParam true cache now
            (Fetch.failure msg) = ⟨.err msg, cache, true⟩) ∧
    (∀ (k : String) (serverKey : Option String) (cache : Cache Firi.BalancesResp)
        (now : Int) (msg : String),
        k ≠ "" →
        cacheGet cache (Firi.balancesCacheKey k) = none →
        cacheGet cache (Firi.balancesCatchKey (some k)) = none →
        Firi.getBalances (some k) serverKey cache now (Fetch.failure msg) =
          ⟨.err 500 msg, cache, true⟩) ∧
    (∀ (symbol : Option String) (cache : Cache Profile.ProfileData) (now : Int)
        (msg : String) (cb : Option String),
        strTruthy symbol = true → cacheGet cache (symbol.getD "") = none →
        Profile.getProfile symbol true cache now (Fetch.failure msg) cb =
          ⟨{ status := 500, success := none,
             error := some "Failed to fetch company profile", profile := none },
            cache, true⟩) ∧
    (∀ (cache : Cache Firi.RateResp) (now : Int) (msg : String),
        cacheGet cache "rate" = none →
        Firi.getUsdtNokRate cache now (Fetch.failure msg) =
          ⟨⟨some (10.5 : Rat)⟩, cache, true⟩) ∧
    (∀ (now : Int) (msg : String),
        ExchangeRates.getExchangeRates ⟨none, 0⟩ now (Fetch.failure msg) =
          ⟨{ data := ExchangeRates.fallbackRates, cached := false, fallback := true },
            ⟨none, 0⟩, true⟩ ∧
        ExchangeRates.fallbackRates = { USD := (10.5 : Rat), SEK := 1, NOK := 1 }) ∧
    (∀ (symbols : Option String) (now : Int) (msgf : String → String),
        strTruthy symbols = true →
        PreviousCloses.previousCloses symbols true [] now
            (fun s => Fetch.failure (msgf s)) =
          ⟨PreviousCloses.PCResp.ok [], []⟩) := by
  refine ⟨?_, ?_, ?_, ?_, ?_, ?_, ?_, ?_, ?_, ?_, ?_, ?_, ?_, ?_⟩
  · intro symbol cache now msg hq hc
    simp [Earnings.getEarningsSurprises, hq, hc, Earnings.getEarningsSurprisesTry]
  · intro symbol cache now msg hq hc
    simp [Earnings.getEarningsEstimates, hq, hc, Earnings.getEarningsEstimatesTry]
  · intro ticker limit cache now msg hq hc
    simp [FinnhubNews.getNewsSentiment, hq, hc, FinnhubNews.getNewsSentimentTry]
  · intro symbol range interval cache now msg hq hc
    simp [YahooChart.getChartData, hq, hc, YahooChart.getChartDataTry,
      YahooChart.staleOr]
  · intro q cache now msg hq htrim hc
    simp [Search.searchStocks, hq, htrim, hc, Search.searchStocksTry]
  · intro symbol cache now msg hq hc
    simp [Financials.getBasicFinancials, hq, hc, Financials.getBasicFinancialsTry]
  · intro symbol cache now msg hq hc
    simp [Recommendations.getRecommendations, hq, hc,
      Recommendations.getRecommendationsTry]
  · intro symbol cache now msg hq hc
    simp [YahooEarnings.getEarningsData, hq, hc, YahooEarnings.getEarningsDataTry]
  · intro ticker limit topics sortParam cache now msg hq hc
    simp [AvNews.getNewsSentiment, hq, hc, AvNews.getNewsSentimentTry]
  · intro k serverKey cache now msg hk hc hcatch
    have ht : strTruthy (some k) = true := by simp [strTruthy, hk]
    simp [Firi.getBalances, jsOrStr, ht, hc, Firi.getBalancesTry, hcatch]
  · intro symbol cache now msg cb hq hc
    simp [Profile.getProfile, hq, hc, Profile.getProfileTry]
  · intro cache now msg hc
    simp [Firi.getUsdtNokRate, hc, Firi.getUsdtNokRateTry]
  · intro now msg
    exact ⟨rfl, rfl⟩
  · intro symbols now msgf hq
    simp [PreviousCloses.previousCloses, hq, foldl_processSymbol_allFail]

/-- C6 (witness): concrete instances of every conjunct of the amended
no-prior-data failure statement. -/
theorem C6_failure_no_cache_witness :
    Earnings.getEarningsSurprises (some "A") true [] 0 (Fetch.failure "m") =
      ⟨.err "m", [], true⟩ ∧
    Earnings.getEarningsEstimates (some "A") true [] 0 (Fetch.failure "m") =
      ⟨.err "m", [], true⟩ ∧
    FinnhubNews.getNewsSentiment (some "A") none true [] 0 (Fetch.failure "m") =
      ⟨.err "m", [], true⟩ ∧
    YahooChart.getChartData (some "A") none none [] 0 (Fetch.failure "m") =
      ⟨.err "m", [], true⟩ ∧
    Search.searchStocks (some "a") [] 0 (Fetch.failure "m") =
      ⟨Search.SearchResp.err "Failed to search stocks" "m", [], true⟩ ∧
    Financials.getBasicFinancials (some "A") true [] 0 (Fetch.failure "m") =
      ⟨.err "m", [], true⟩ ∧
    Recommendations.getRecommendations (some "A") true [] 0 (Fetch.failure "m") =
      ⟨.err "m", [], true⟩ ∧
    YahooEarnings.getEarningsData (some "a") [] 0 (Fetch.failure "m") =
      ⟨.err 500 "Failed to fetch earnings data", [], true⟩ ∧
    AvNews.getNewsSentiment (some "A") none none none true [] 0 (Fetch.failure "m") =
      ⟨.err "m", [], true⟩ ∧
    Firi.getBalances (some "SECRETAA-1") none [] 0 (Fetch.failure "m") =
      ⟨.err 500 "m", [], true⟩ ∧
    Profile.getProfile (some "A") true [] 0 (Fetch.failure "m") none =
      ⟨{ status := 500, success := none,
         error := some "Failed to fetch company profile", profile := none },
        [], true⟩ ∧
    Firi.getUsdtNokRate [] 0 (Fetch.failure "m") = ⟨⟨some (10.5 : Rat)⟩, [], true⟩ ∧
    ExchangeRates.getExchangeRates ⟨none, 0⟩ 0 (Fetch.failure "m") =
      ⟨{ data := ExchangeRates.fallbackRates, cached := false, fallback := true },
        ⟨none, 0⟩, true⟩ ∧
    PreviousCloses.previousCloses (some "AAPL,MSFT") true [] 0
        (fun s => Fetch.failure ("fail " ++ s)) = ⟨PreviousCloses.PCResp.ok [], []⟩ := by
  refine ⟨?_, ?_, ?_, ?_, ?_, ?_, ?_, ?_, ?_, ?_, ?_, ?_, ?_, ?_⟩
  · exact C6_failure_no_cache.1 (some "A") [] 0 "m" (by decide) (by decide)
  · exact C6_failure_no_cache.2.1 (some "A") [] 0 "m" (by decide) (by decide)
  · exact C6_failure_no_cache.2.2.1 (some "A") none [] 0 "m" (by decide) (by decide)
  · have h := C6_failure_no_cache.2.2.2.1 (some "A") none none [] 0 "m"
      (by decide) (by decide)
    simpa [jsOrStrD, strTruthy] using h
  · exact C6_failure_no_cache.2.2.2.2.1 (some "a") [] 0 "m"
      (by decide) (by decide) (by decide)
  · exact C6_failure_no_cache.2.2.2.2.2.1 (some "A") [] 0 "m" (by decide) (by decide)
  · exact C6_failure_no_cache.2.2.2.2.2.2.1 (some "A") [] 0 "m" (by decide) (by decide)
  · exact C6_failure_no_cache.2.2.2.2.2.2.2.1 (some "a") [] 0 "m"
      (by decide) (by decide)
  · exact C6_failure_no_cache.2.2.2.2.2.2.2.2.1 (some "A") none none none [] 0 "m"
      (by decide) (by decide)
  · exact C6_failure_no_cache.2.2.2.2.2.2.2.2.2.1 "SECRETAA-1" none [] 0 "m"
      (by decide) (by decide) (by decide)
  · exact C6_failure_no_cache.2.2.2.2.2.2.2.2.2.2.1 (some "A") [] 0 "m" none
      (by decide) (by decide)
  · exact C6_failure_no_cache.2.2.2.2.2.2.2.2.2.2.2.1 [] 0 "m" (by decide)
  · exact (C6_failure_no_cache.2.2.2.2.2.2.2.2.2.2.2.2.1 0 "m").1
  · exact C6_failure_no_cache.2.2.2.2.2.2.2.2.2.2.2.2.2 (some "AAPL,MSFT") 0
      (fun s => "fail " ++ s) (by decide)

/-- C7 (witness): clearing symbol "AAPL" removes it from both earnings
stores, leaves "MSFT" alone; clearing with no symbol empties everything. -/
theorem C7_cache_clear_witness :
    ("AAPL" : String) ≠ "" ∧
    cacheGet (Earnings.clearCache (some "AAPL")
        [("AAPL", ⟨0, Earnings.EarningsResp.ok []⟩),
         ("MSFT", ⟨1, Earnings.EarningsResp.ok []⟩)] []).earningsCache "AAPL" = none ∧
    cacheGet (Earnings.clearCache (some "AAPL")
        [("AAPL", ⟨0, Earnings.EarningsResp.ok []⟩),
         ("MSFT", ⟨1, Earnings.EarningsResp.ok []⟩)] []).earningsCache "MSFT" =
      some ⟨1, Earnings.EarningsResp.ok []⟩ ∧
    (∀ k, cacheGet (YahooEarnings.clearCache none
        [("AAPL", ⟨0, ⟨[], [], none⟩⟩)]).earningsCache k = none) := by
  have h := C7_cache_clear
  refine ⟨by decide, (h.1 "AAPL" _ [] (by decide)).1, ?_, (h.2.2.2 _).1⟩
  have hm := (h.1 "AAPL"
      [("AAPL", ⟨0, Earnings.EarningsResp.ok []⟩),
       ("MSFT", ⟨1, Earnings.EarningsResp.ok []⟩)] [] (by decide)).2.2.1 "MSFT" (by decide)
  rw [hm]
  rfl

end BullPen
